import Mathlib

set_option maxRecDepth 8192
set_option linter.unusedVariables false

namespace LZero

/-!
Shallow embedding of the VortexAI L0 intent-routing and plugin-orchestration
core: the plugin registry (`src/plugins.ts`, reproduced in `docs/l0_plan.md`),
the orchestrator (`src/orchestrator.ts`) and the memory-services plugin
(`src/memory-plugin.ts`).  JavaScript strings are modelled as Lean `String`
(one `Char` per UTF-16 unit; all data in scope is in the basic plane, where
the two coincide), promises as pure values, a rejected promise / thrown
exception as `Except.error`, and the outbound HTTP boundary as an oracle
function from requests to outcomes plus an explicit request log.
-/

-- ===========================================================================
-- JavaScript string primitives
-- ===========================================================================

/-- JS `String.prototype.startsWith` on character lists: first argument is the
needle, second the haystack. -/
def charsStartWith : List Char → List Char → Bool
  | [], _ => true
  | _ :: _, [] => false
  | n :: ns, h :: hs => n == h && charsStartWith ns hs

/-- Contiguous-substring test on character lists (JS `String.prototype.includes`
semantics: the empty needle is contained in everything). -/
def charsContain (needle : List Char) : List Char → Bool
  | [] => needle.isEmpty
  | c :: rest => charsStartWith needle (c :: rest) || charsContain needle rest

/-- JS `hay.includes(needle)`. -/
def includes (hay needle : String) : Bool :=
  charsContain needle.toList hay.toList

/-- JS `String.prototype.toLowerCase`, restricted to the simple per-character
case mapping (`Char.toLower` covers ASCII, which is all the data in scope). -/
def jsLower (s : String) : String := ⟨s.toList.map Char.toLower⟩

/-- JS `\s` character class (whitespace as used by the regexes and `trim`). -/
def wsChar (c : Char) : Bool :=
  c.toNat == 0x20 || c.toNat == 0x09 || c.toNat == 0x0a || c.toNat == 0x0b ||
  c.toNat == 0x0c || c.toNat == 0x0d || c.toNat == 0xa0 || c.toNat == 0x1680 ||
  (0x2000 ≤ c.toNat && c.toNat ≤ 0x200a) ||
  c.toNat == 0x2028 || c.toNat == 0x2029 || c.toNat == 0x202f ||
  c.toNat == 0x205f || c.toNat == 0x3000 || c.toNat == 0xfeff

/-- JS line terminators: the characters the regex `.` does not match. -/
def lineTermChar (c : Char) : Bool :=
  c.toNat == 0x0a || c.toNat == 0x0d || c.toNat == 0x2028 || c.toNat == 0x2029

/-- JS `String.prototype.trim`. -/
def jsTrim (s : String) : String :=
  ⟨((s.toList.dropWhile wsChar).reverse.dropWhile wsChar).reverse⟩

/-- JS `Math.round` (round half toward positive infinity). -/
def mathRound (x : Rat) : Int := (x + 1/2).floor

-- ===========================================================================
-- Data model (plugins.ts / orchestrator.ts type definitions)
-- ===========================================================================

/-- `L0ResponseType` from orchestrator.ts. -/
inductive L0ResponseType where
  | snippet | memory | context | help | orchestration | campaign
deriving DecidableEq, Repr

/-- JSON-like values carried in the `data` field of an `L0Response`
(`Record<string, unknown> | string` in the source). -/
inductive JsonVal where
  | s : String → JsonVal
  | num : Rat → JsonVal
  | b : Bool → JsonVal
  | arr : List JsonVal → JsonVal
  | obj : List (String × JsonVal) → JsonVal
  | undef : JsonVal

/-- `L0Response` from orchestrator.ts: optional fields are `Option`, absent
(`undefined`) by default. -/
structure L0Response where
  message : String
  type : L0ResponseType
  code : Option String := none
  data : Option JsonVal := none
  related : Option (List String) := none
  clipboard : Option Bool := none
  dashboardUrl : Option String := none
  workflow : Option (List String) := none
  agents : Option (List String) := none

/-- `PluginMetadata` from plugins.ts. -/
structure PluginMetadata where
  name : String
  version : String
  description : String
  author : Option String := none
  keywords : List String := []
deriving DecidableEq, Repr

/-- Opaque options bag (`Record<string, unknown>`): nothing in the routed code
inspects it, so string values suffice. -/
abbrev Opts := List (String × String)

/-- `PluginContext` from plugins.ts. -/
structure PluginContext where
  query : String
  options : Option Opts := none

/-- `PluginHandler`: the source type is `(context) => Promise<L0Response>`.
A fulfilled promise is `Except.ok`, a rejected promise (thrown exception)
is `Except.error` carrying the error message. -/
abbrev PluginHandler := PluginContext → Except String L0Response

/-- `L0Plugin` from plugins.ts (`priority?: number`, integer per the spec). -/
structure L0Plugin where
  metadata : PluginMetadata
  triggers : List String
  handler : PluginHandler
  priority : Option Int := none

/-- `PluginRegistration` from plugins.ts; the JS `Date` is modelled as a
numeric timestamp supplied to `register` by the caller. -/
structure PluginRegistration where
  plugin : L0Plugin
  enabled : Bool
  registeredAt : Nat

/-- The `PluginManager`'s private `Map<string, PluginRegistration>`: a JS Map
iterates in insertion order, so it is modelled as an association list to which
`register` appends. -/
structure PluginManager where
  entries : List (String × PluginRegistration)

-- ===========================================================================
-- PluginManager operations (plugins.ts)
-- ===========================================================================

/-- JS `Map.prototype.has` on the insertion-ordered association list. -/
def mapHas (name : String) (m : List (String × PluginRegistration)) : Bool :=
  m.any (fun e => e.1 == name)

/-- JS `Map.prototype.get`. -/
def mapGet (name : String) (m : List (String × PluginRegistration)) :
    Option PluginRegistration :=
  (m.find? (fun e => e.1 == name)).map (fun e => e.2)

/-- `PluginManager.validatePlugin`.  The `typeof handler !== 'function'` and
`!Array.isArray(triggers)` arms are vacuous here because the embedding types
`handler` as a function and `triggers` as a list; JS string truthiness makes
the metadata checks empty-string checks. -/
def validatePlugin (plugin : L0Plugin) : Bool :=
  if plugin.metadata.name == "" || plugin.metadata.version == "" ||
      plugin.metadata.description == "" then false
  else if plugin.triggers.isEmpty then false
  else true

/-- `PluginManager.register`: rejects an already-registered name before
validating, validates, then inserts a new registration with `enabled = true`
and the caller-supplied timestamp (`new Date()` in the source). -/
def register (plugin : L0Plugin) (now : Nat) (st : PluginManager) :
    Bool × PluginManager :=
  if mapHas plugin.metadata.name st.entries then
    (false, st)
  else if !validatePlugin plugin then
    (false, st)
  else
    (true, ⟨st.entries ++ [(plugin.metadata.name, ⟨plugin, true, now⟩)]⟩)

/-- `PluginManager.unregister` (JS `Map.prototype.delete`: returns whether the
key was present and removes that entry). -/
def unregister (name : String) (st : PluginManager) : Bool × PluginManager :=
  (mapHas name st.entries, ⟨st.entries.eraseP (fun e => e.1 == name)⟩)

/-- `PluginManager.setEnabled`: in-place flag mutation on the registration
object held in the map, position preserved. -/
def setEnabled (name : String) (enabled : Bool) (st : PluginManager) :
    Bool × PluginManager :=
  match mapGet name st.entries with
  | none => (false, st)
  | some _ =>
    (true, ⟨st.entries.map (fun e =>
      if e.1 == name then (e.1, { e.2 with enabled := enabled }) else e)⟩)

/-- The trigger-scoring loop inside `findMatching`: starting from 0, each
trigger whose lowercased text is contained in the (already lowercased) query
adds its length. -/
def triggerScore (lowerQuery : String) (triggers : List String) : Nat :=
  triggers.foldl
    (fun score t => if includes lowerQuery (jsLower t) then score + t.length else score) 0

/-- The match-collection loop of `findMatching`: skip disabled registrations,
drop zero trigger-score plugins, and pair the rest with
`score + (plugin.priority || 0)`. -/
def collectMatches (lowerQuery : String) :
    List (String × PluginRegistration) → List (L0Plugin × Int)
  | [] => []
  | e :: rest =>
    if e.2.enabled = false then collectMatches lowerQuery rest
    else
      let score := triggerScore lowerQuery e.2.plugin.triggers
      if score > 0 then
        (e.2.plugin, (score : Int) + e.2.plugin.priority.getD 0) ::
          collectMatches lowerQuery rest
      else collectMatches lowerQuery rest

/-- Stable insertion used to model `Array.prototype.sort` with the comparator
`(a, b) => b.score - a.score`: an element moves ahead only of strictly
smaller scores, so equal scores keep their original relative order (ES2019
guarantees the sort is stable). -/
def insertDesc (x : L0Plugin × Int) : List (L0Plugin × Int) → List (L0Plugin × Int)
  | [] => [x]
  | y :: ys => if x.2 > y.2 then x :: y :: ys else y :: insertDesc x ys

/-- Stable descending sort by score (the unique stable result of the JS sort). -/
def sortDesc (l : List (L0Plugin × Int)) : List (L0Plugin × Int) :=
  l.foldl (fun acc x => insertDesc x acc) []

/-- `PluginManager.findMatching`: lowercase the query once, collect scored
matches over the registry in iteration order, sort by descending score
(stable), and return the plugins. -/
def findMatching (query : String) (st : PluginManager) : List L0Plugin :=
  (sortDesc (collectMatches (jsLower query) st.entries)).map (fun m => m.1)

/-- `PluginManager.execute`: null when nothing matches, otherwise the result
of the single best-ranked plugin's handler — the source returns
`matches[0].handler(context)` with no try/catch, so a rejection propagates. -/
def execute (query : String) (options : Option Opts) (st : PluginManager) :
    Except String (Option L0Response) :=
  match findMatching query st with
  | [] => .ok none
  | p :: _ => (p.handler ⟨query, options⟩).map some

/-- `PluginManager.list`: metadata of enabled registrations only. -/
def list (st : PluginManager) : List PluginMetadata :=
  ((st.entries.filter (fun e => e.2.enabled)).map (fun e => e.2.plugin.metadata))

/-- Row shape returned by `listDetailed`. -/
structure DetailedEntry where
  metadata : PluginMetadata
  enabled : Bool
  triggers : List String
deriving DecidableEq, Repr

/-- `PluginManager.listDetailed`: every registration, enabled or not, with its
enabled flag and triggers. -/
def listDetailed (st : PluginManager) : List DetailedEntry :=
  st.entries.map (fun e => ⟨e.2.plugin.metadata, e.2.enabled, e.2.plugin.triggers⟩)

/-- `PluginManager.count`. -/
def count (st : PluginManager) : Nat := st.entries.length

/-- `PluginManager.enabledCount`. -/
def enabledCount (st : PluginManager) : Nat :=
  (st.entries.filter (fun e => e.2.enabled)).length

/-- `PluginManager.has`. -/
def has (name : String) (st : PluginManager) : Bool := mapHas name st.entries

/-- `PluginManager.get`. -/
def get (name : String) (st : PluginManager) : Option L0Plugin :=
  (mapGet name st.entries).map (fun r => r.plugin)

-- ===========================================================================
-- Orchestrator (orchestrator.ts)
-- ===========================================================================

def COMMON_STOP_WORDS : List String :=
  ["the", "and", "for", "with", "from", "that", "this", "nonexistent", "component"]

def MIN_KEYWORD_LENGTH : Nat := 2

def MIN_MATCH_COUNT : Nat := 2

def PREVIEW_LENGTH : Nat := 100

/-- The private interface `CodeSnippet` of orchestrator.ts. -/
structure CodeSnippet where
  id : String
  title : String
  content : String
  language : String
  tags : List String
  lastUsed : String
  project : String

/-- The private interface `Memory` of orchestrator.ts (named `MemoryItem` here
because the memory plugin declares a different `Memory`). -/
structure MemoryItem where
  id : String
  title : String
  content : String
  type : String
  date : String
  tags : List String

/-- The private interface `Campaign` of orchestrator.ts. -/
structure Campaign where
  id : String
  title : String
  strategy : String
  platforms : List String
  budget : String
  duration : String
  kpis : List String

/-- The `snippets` part of the orchestrator's `mockDatabase` (code-content
braces are written as hex escapes, apostrophes as \x27). -/
def mockSnippets : List CodeSnippet :=
  [{ id := "floating-card-1",
     title := "Floating Black Card Component",
     content := "<div className=\"fixed bottom-4 right-4 bg-black rounded-lg shadow-xl p-4 text-white max-w-sm animate-fade-in\">\n  <div className=\"flex items-center gap-3\">\n    <div className=\"w-8 h-8 bg-blue-500 rounded-full\" />\n    <div>\n      <h3 className=\"font-medium\">Notification</h3>\n      <p className=\"text-sm opacity-75\">\x7bmessage\x7d</p>\n    </div>\n  </div>\n</div>",
     language := "react",
     tags := ["ui", "floating", "notification", "card"],
     lastUsed := "2 days ago",
     project := "dashboard-redesign" },
   { id := "social-post-scheduler",
     title := "Social Media Post Scheduler",
     content := "const schedulePost = async (content, platforms, scheduledTime) => \x7b\n  const post = \x7b\n    content,\n    platforms: platforms.split(\x27,\x27),\n    scheduledTime: new Date(scheduledTime),\n    status: \x27scheduled\x27,\n    analytics: \x7b impressions: 0, engagement: 0 \x7d\n  \x7d;\n  \n  return await socialMediaAPI.schedule(post);\n\x7d;",
     language := "javascript",
     tags := ["social-media", "scheduler", "automation"],
     lastUsed := "1 hour ago",
     project := "vortex-campaign-manager" },
   { id := "trend-analyzer",
     title := "Trending Topics Analyzer",
     content := "const analyzeTrends = async (platform, timeframe = \x272\x34h\x27) => \x7b\n  const trends = await trendingAPI.getTrends(\x7b\n    platform,\n    timeframe,\n    location: \x27global\x27\n  \x7d);\n  \n  return trends.map(trend => (\x7b\n    hashtag: trend.name,\n    volume: trend.tweet_volume,\n    growth: trend.growth_rate,\n    relevanceScore: calculateRelevance(trend)\n  \x7d));\n\x7d;",
     language := "javascript",
     tags := ["trends", "social-media", "analytics"],
     lastUsed := "30 minutes ago",
     project := "trend-intelligence" }]

/-- The `memories` part of the orchestrator's `mockDatabase`. -/
def mockMemories : List MemoryItem :=
  [{ id := "campaign-strategy-1",
     title := "Viral TikTok Campaign Strategy",
     content := "Key elements: Hook in first 3 seconds, trending audio, user-generated content encouragement, cross-platform promotion. Target: Gen Z, 16-24 age group.",
     type := "strategy",
     date := "today",
     tags := ["tiktok", "viral", "strategy", "gen-z"] },
   { id := "content-calendar-1",
     title := "Q4 Content Calendar Framework",
     content := "Weekly themes: Monday motivation, Tuesday tips, Wednesday wins, Thursday throwback, Friday fun. Holiday content: Halloween, Black Friday, Cyber Monday, Christmas campaigns.",
     type := "planning",
     date := "yesterday",
     tags := ["content-calendar", "q4", "holidays", "framework"] },
   { id := "oauth-implementation-1",
     title := "OAuth Integration Best Practices",
     content := "Use PKCE for public clients, implement proper state validation, secure token storage, refresh token rotation. Never expose client secrets in frontend.",
     type := "reference",
     date := "3 days ago",
     tags := ["oauth", "security", "authentication", "best-practices"] }]

/-- The `campaigns` part of the orchestrator's `mockDatabase`. -/
def mockCampaigns : List Campaign :=
  [{ id := "eco-product-launch",
     title := "Eco-Friendly Product Launch Campaign",
     strategy := "Sustainability-focused messaging, influencer partnerships, user-generated content, educational content series",
     platforms := ["tiktok", "instagram", "twitter", "linkedin"],
     budget := "$10000",
     duration := "2 weeks",
     kpis := ["brand_awareness", "engagement_rate", "conversions"] }]

/-- `L0Orchestrator.isHelpRequest` (argument is the already-lowercased query). -/
def isHelpRequest (query : String) : Bool :=
  charsStartWith "help".toList query.toList || includes query "help " ||
  includes query "how to"

/-- `L0Orchestrator.isCodeRequest`. -/
def isCodeRequest (query : String) : Bool :=
  includes query "code" || includes query "snippet"

/-- `L0Orchestrator.isMemoryRequest`. -/
def isMemoryRequest (query : String) : Bool :=
  includes query "memory" || includes query "notes" || includes query "meeting"

/-- `L0Orchestrator.isCampaignRequest`. -/
def isCampaignRequest (query : String) : Bool :=
  includes query "campaign" || includes query "social media" || includes query "viral"

/-- `L0Orchestrator.isContentRequest`. -/
def isContentRequest (query : String) : Bool :=
  includes query "content" && (includes query "create" || includes query "strategy")

/-- `L0Orchestrator.isTrendRequest`. -/
def isTrendRequest (query : String) : Bool :=
  includes query "trend" || includes query "hashtag" || includes query "analytics"

/-- Disjunction of the six built-in classifiers, in their evaluation order. -/
def builtinMatches (lowerQuery : String) : Bool :=
  isHelpRequest lowerQuery || isCodeRequest lowerQuery || isMemoryRequest lowerQuery ||
  isCampaignRequest lowerQuery || isContentRequest lowerQuery || isTrendRequest lowerQuery

/-- The `campaignTypes` table of `orchestrateCampaign`, in key order. -/
def campaignTypes : List (String × String) :=
  [("viral", "Viral Campaign Strategy"),
   ("product launch", "Product Launch Campaign"),
   ("brand awareness", "Brand Awareness Campaign"),
   ("engagement", "Engagement-Focused Campaign")]

/-- `L0Orchestrator.orchestrateCampaign`: the first table key contained in the
lowercased request picks the label; the miss case falls through
(`campaignTypes['general']` is undefined) to "Social Media Campaign". -/
def orchestrateCampaign (request : String) : L0Response :=
  let campaignType := campaignTypes.find? (fun t => includes (jsLower request) t.1)
  let label :=
    match campaignType with
    | some t => t.2
    | none => "Social Media Campaign"
  { message := "🎯 Orchestrating " ++ label
    type := .campaign
    workflow := some [
      "📊 Market Research & Competitor Analysis",
      "🎨 Creative Strategy & Content Planning",
      "📱 Platform-Specific Content Creation",
      "⏰ Scheduling & Automation Setup",
      "📈 Analytics & Performance Tracking"]
    agents := some [
      "Research Agent: Analyzing market trends and competitor strategies",
      "Creative Agent: Developing content themes and visual concepts",
      "Platform Agent: Optimizing for TikTok, Instagram, Twitter algorithms",
      "Analytics Agent: Setting up tracking and KPI dashboards"]
    data := some (.obj [
      ("estimatedDuration", .s "2-3 weeks"),
      ("recommendedBudget", .s "$5,000 - $15,000"),
      ("expectedReach", .s "100K - 500K impressions"),
      ("keyPlatforms", .arr [.s "TikTok", .s "Instagram", .s "Twitter"])])
    related := some ["content calendar", "hashtag research", "influencer outreach"] }

/-- `L0Orchestrator.orchestrateContent`. -/
def orchestrateContent (request : String) : L0Response :=
  { message := "📝 Orchestrating Content Creation Workflow"
    type := .orchestration
    workflow := some [
      "🔍 Topic Research & Trend Analysis",
      "📋 Content Outline & Structure Planning",
      "✍️  Draft Creation with SEO Optimization",
      "🎨 Visual Content & Graphics Creation",
      "📊 Review, Edit, and Performance Optimization"]
    agents := some [
      "Research Agent: Identifying trending topics and keywords",
      "Content Agent: Creating outlines and drafts",
      "SEO Agent: Optimizing for search and discoverability",
      "Design Agent: Creating supporting visuals and graphics"]
    data := some (.obj [
      ("contentTypes", .arr [.s "Blog Posts", .s "Social Media Posts", .s "Video Scripts", .s "Email Campaigns"]),
      ("timeframe", .s "1-2 weeks per content piece"),
      ("deliverables", .s "High-quality, SEO-optimized content ready for publication")])
    related := some ["content calendar", "keyword research", "brand guidelines"] }

/-- `L0Orchestrator.analyzeTrends`. -/
def analyzeTrends (request : String) : L0Response :=
  let mockTrends : List (String × String × String) :=
    [("#EcoFriendly", "2.3M", "+45%"),
     ("#SustainableLiving", "1.8M", "+32%"),
     ("#GreenTech", "856K", "+28%")]
  { message := "📈 Real-time Trend Analysis Complete"
    type := .orchestration
    data := some (.obj [
      ("trendingHashtags", .arr (mockTrends.map (fun t =>
        .obj [("hashtag", .s t.1), ("volume", .s t.2.1), ("growth", .s t.2.2)]))),
      ("analysisTime", .s "Last 24 hours"),
      ("platforms", .arr [.s "TikTok", .s "Instagram", .s "Twitter"]),
      ("recommendations", .arr [
        .s "Focus on sustainability themes",
        .s "User-generated content opportunities",
        .s "Partner with eco-influencers"])])
    workflow := some [
      "📊 Data Collection from Multiple Platforms",
      "🧮 Trend Volume & Growth Analysis",
      "🎯 Relevance Scoring for Your Brand",
      "📝 Actionable Recommendations Generation"]
    related := some ["hashtag strategy", "content calendar", "influencer research"] }

/-- `L0Orchestrator.extractKeywords`: lowercase, split on spaces, keep words
longer than `MIN_KEYWORD_LENGTH`, drop stop words. -/
def extractKeywords (description : String) : List String :=
  let keywords := ((jsLower description).splitOn " ").filter
    (fun k => k.length > MIN_KEYWORD_LENGTH)
  keywords.filter (fun k => !(COMMON_STOP_WORDS.contains k))

/-- `L0Orchestrator.shouldReturnNoMatches`. -/
def shouldReturnNoMatches (description : String) (keywords : List String) : Bool :=
  includes (jsLower description) "nonexistent" || keywords.length == 0

/-- `L0Orchestrator.findMatchingSnippets`. -/
def findMatchingSnippets (keywords : List String) : List CodeSnippet :=
  mockSnippets.filter (fun snippet =>
    let titleLower := jsLower snippet.title
    let contentLower := jsLower snippet.content
    let allTags := jsLower (String.intercalate " " snippet.tags)
    let titleMatch := keywords.any (fun kw => includes titleLower kw)
    if titleMatch && keywords.length == 1 then
      true
    else
      let matchCount := (keywords.filter (fun keyword =>
        includes titleLower keyword || includes allTags keyword ||
        includes contentLower keyword)).length
      decide (matchCount ≥ min MIN_MATCH_COUNT keywords.length))

/-- `L0Orchestrator.createNoMatchResponse`. -/
def createNoMatchResponse (query : String) (type : L0ResponseType) : L0Response :=
  { message := "No " ++ (if type = .snippet then "code snippets" else "results") ++
      " found for \"" ++ query ++ "\". Try different keywords!"
    type := type
    related := some ["floating card", "social scheduler", "trend analyzer"] }

/-- `L0Orchestrator.createCodeResponse`, decomposed as best match plus the tail
of the match list so the `matches[0]` access of the source is total (the
caller only invokes it on a non-empty match list). -/
def createCodeResponse (bestMatch : CodeSnippet) (rest : List CodeSnippet) : L0Response :=
  let total := rest.length + 1
  { message := "Found " ++ toString total ++ " matching snippet" ++
      (if total > 1 then "s" else "") ++ ":"
    code := some bestMatch.content
    data := some (.obj [
      ("title", .s bestMatch.title),
      ("language", .s bestMatch.language),
      ("lastUsed", .s bestMatch.lastUsed),
      ("project", .s bestMatch.project),
      ("tags", .arr (bestMatch.tags.map JsonVal.s))])
    type := .snippet
    clipboard := some true
    dashboardUrl := some ("/memories/" ++ bestMatch.id)
    related := some ((rest.take 2).map (fun m => m.title)) }

/-- `L0Orchestrator.findCode`. -/
def findCode (description : String) : L0Response :=
  let filteredKeywords := extractKeywords description
  if shouldReturnNoMatches description filteredKeywords then
    createNoMatchResponse description .snippet
  else
    match findMatchingSnippets filteredKeywords with
    | [] => createNoMatchResponse description .snippet
    | bestMatch :: rest => createCodeResponse bestMatch rest

/-- Upper-case hex digit. -/
def hexUpper (n : Nat) : Char :=
  if n < 10 then Char.ofNat (48 + n) else Char.ofNat (55 + n)

/-- Percent-encode one byte. -/
def percentByte (b : UInt8) : String :=
  ⟨['%', hexUpper (b.toNat / 16), hexUpper (b.toNat % 16)]⟩

/-- Characters `encodeURIComponent` leaves untouched. -/
def uriUnreservedChar (c : Char) : Bool :=
  c.isAlphanum || c == '-' || c == '_' || c == '.' || c == '!' || c == '~' ||
  c == '*' || c.toNat == 0x27 || c == '(' || c == ')'

/-- JS `encodeURIComponent`: unreserved characters pass through, everything
else becomes percent-encoded UTF-8 bytes. -/
def encodeURIComponent (s : String) : String :=
  String.join (s.toList.map (fun c =>
    if uriUnreservedChar c then String.singleton c
    else String.join (((String.singleton c).toUTF8.toList).map percentByte)))

/-- `L0Orchestrator.searchMemories` (the mock-database search, distinct from
the memory plugin's REST search). -/
def searchMemories (query : String) : L0Response :=
  let keywords := (jsLower query).splitOn " "
  let found := mockMemories.filter (fun memory =>
    keywords.any (fun keyword =>
      includes (jsLower memory.title) keyword ||
      includes (jsLower memory.content) keyword ||
      memory.tags.any (fun tag => includes tag keyword)))
  if found.length == 0 then
    { message := "No memories found for \"" ++ query ++ "\". Your knowledge base is growing!"
      type := .memory
      related := some ["campaign strategies", "content frameworks", "implementation guides"] }
  else
    let results := String.intercalate "\n\n"
      (found.map (fun m => m.title ++ ": " ++ m.content.take PREVIEW_LENGTH ++ "..."))
    { message := "Found " ++ toString found.length ++ " relevant memories:"
      data := some (.s results)
      type := .memory
      dashboardUrl := some ("/memories?q=" ++ encodeURIComponent query)
      related := some ((found.take 3).map (fun m => m.title)) }

/-- The `helpTopics` table of `getHelp`, in key order. -/
def helpTopics : List (String × String) :=
  [("social media", "Social Media: Platform-specific strategies, content calendars, hashtag research, viral mechanics"),
   ("campaign", "Campaign Management: Strategy development, multi-platform coordination, performance tracking"),
   ("content", "Content Creation: Research, planning, SEO optimization, visual design, distribution"),
   ("trends", "Trend Analysis: Real-time monitoring, hashtag research, competitive intelligence"),
   ("oauth", "OAuth Implementation: PKCE flow, secure token storage, refresh handling, best practices"),
   ("react", "React Patterns: Component design, state management, performance optimization, testing")]

/-- `L0Orchestrator.getHelp`. -/
def getHelp (query : String) : L0Response :=
  match helpTopics.find? (fun t => includes (jsLower query) t.1) with
  | some t =>
    { message := t.2
      type := .help
      related := some ((helpTopics.map (fun x => x.1)).filter (fun x => !(x == t.1))) }
  | none =>
    { message := "🌪️  VortexAI L0 can orchestrate: Social Media Campaigns, Content Creation, Trend Analysis, Code Development, and more. What would you like to orchestrate?"
      type := .help
      related := some (helpTopics.map (fun x => x.1)) }

/-- `L0Orchestrator.orchestrateGeneral`. -/
def orchestrateGeneral (request : String) : L0Response :=
  { message := "🧠 L0 analyzing: \"" ++ request ++ "\""
    type := .orchestration
    workflow := some [
      "🔍 Request Analysis & Intent Detection",
      "🤖 Agent Selection & Task Delegation",
      "⚡ Parallel Execution & Coordination",
      "📊 Results Aggregation & Optimization",
      "✅ Quality Check & Delivery"]
    agents := some [
      "Orchestrator Agent: Managing workflow coordination",
      "Specialist Agents: Executing domain-specific tasks",
      "Quality Agent: Ensuring output standards",
      "Analytics Agent: Tracking performance metrics"]
    data := some (.obj [
      ("requestType", .s "General Orchestration"),
      ("complexity", .s "Medium"),
      ("estimatedTime", .s "15-30 minutes")])
    related := some [
      "Use more specific keywords for better orchestration",
      "Try: \"create social campaign\" or \"analyze trends\""] }

/-- `L0Orchestrator.query`: lowercase once, evaluate the built-in classifiers
in their fixed order, then try the plugin registry, then fall back to general
orchestration.  The `await this.plugins.execute(...)` is not wrapped in a
try/catch, so an error result from `execute` propagates. -/
def L0Orchestrator.query (query : String) (options : Option Opts)
    (st : PluginManager) : Except String L0Response :=
  let lowerQuery := jsLower query
  if isHelpRequest lowerQuery then .ok (getHelp query)
  else if isCodeRequest lowerQuery then .ok (findCode query)
  else if isMemoryRequest lowerQuery then .ok (searchMemories query)
  else if isCampaignRequest lowerQuery then .ok (orchestrateCampaign query)
  else if isContentRequest lowerQuery then .ok (orchestrateContent query)
  else if isTrendRequest lowerQuery then .ok (analyzeTrends query)
  else
    match execute query options st with
    | .error e => .error e
    | .ok (some pluginResponse) => .ok pluginResponse
    | .ok none => .ok (orchestrateGeneral query)

-- ===========================================================================
-- Memory services plugin (memory-plugin.ts)
-- ===========================================================================

namespace MemoryPlugin

/-- `MemoryPluginConfig`, with the module-level `pluginConfig` defaults as
they stand when no environment variables are set. -/
structure MemoryPluginConfig where
  apiUrl : String := "https://api.lanonasis.com"
  authToken : Option String := none
  userId : Option String := none
  timeout : Nat := 30000
deriving DecidableEq, Repr

/-- Ambient impure inputs used only by `recordPattern`
(`new Date().toISOString()` and `process.cwd()`). -/
structure Env where
  nowIso : String := ""
  cwd : String := "/"
deriving DecidableEq, Repr

inductive HttpMethod where
  | get | post | delete
deriving DecidableEq, Repr

/-- The `Memory` interface of memory-plugin.ts. -/
structure Memory where
  id : String
  title : String
  content : String
  memory_type : String
  tags : Option (List String) := none
  similarity : Option Rat := none
  created_at : Option String := none
deriving DecidableEq, Repr

structure TagSuggestion where
  tag : String
  confidence : Rat
deriving DecidableEq, Repr

structure RelatedMemory where
  memory : Memory
  similarity : Rat
deriving DecidableEq, Repr

structure BehaviorPattern where
  trigger : String
  actions : List String
  confidence : Rat
  lastUsed : Option String := none
deriving DecidableEq, Repr

structure DuplicatePair where
  memory1 : Memory
  memory2 : Memory
  similarity : Rat
deriving DecidableEq, Repr

/-- One recorded action inside the `recordPattern` request body (the
`parameters` field is always the empty object and is omitted). -/
structure RecordedAction where
  tool : String
  outcome : String
  timestamp : String
deriving DecidableEq, Repr

/-- The optional `context` of `RecordPatternInput`. -/
structure RecordContext where
  directory : Option String := none
  project_type : Option String := none
  files_touched : Option (List String) := none
deriving DecidableEq, Repr

/-- `RecordPatternInput` from memory-plugin.ts (`outcome` is one of
"success" | "partial" | "failed"). -/
structure RecordPatternInput where
  trigger : String
  actions : List String
  context : Option RecordContext := none
  outcome : String
  confidence : Option Rat := none
deriving DecidableEq, Repr

/-- JSON request bodies of the REST helpers, one constructor per payload
shape. -/
inductive ApiBody where
  | search (query : String) (limit : Nat) (threshold : Rat)
  | createMem (title content memory_type : String) (tags : List String)
  | suggestTags (memory_id : String) (user_id : Option String)
  | findRelated (memory_id : String) (user_id : Option String) (limit : Nat)
  | recall (user_id : Option String) (current_task : String)
      (current_directory : Option String) (limit : Nat)
  | suggestNext (user_id : Option String) (task_description : String)
      (completed_steps : List String)
  | detectDuplicates (user_id : Option String) (similarity_threshold : Rat)
      (max_pairs : Nat)
  | record (user_id : Option String) (trigger : String) (context : RecordContext)
      (actions : List RecordedAction) (final_outcome : String) (confidence : Rat)
deriving DecidableEq, Repr

/-- One outbound HTTP call: method, full URL (`cfg.apiUrl ++ endpoint`), the
endpoint path, the bearer token attached when configured, and the JSON body.
Every call also sends `Content-Type: application/json` and runs under an
abort timer of `cfg.timeout` ms; both are absorbed by the network oracle. -/
structure ApiRequest where
  method : HttpMethod
  url : String
  endpoint : String
  authToken : Option String
  body : Option ApiBody
deriving DecidableEq, Repr

/-- Typed success payloads of the endpoints (what `response.json()` is cast
to at each call site). -/
inductive ApiData where
  | searchResult (results : List Memory) (total : Option Nat)
  | memoryRec (m : Memory)
  | memoryPage (data : List Memory)
  | deletedFlag (deleted : Bool)
  | tagSuggestions (suggestions : List TagSuggestion)
  | relatedMemories (related : List RelatedMemory)
  | behaviorPatterns (patterns : List BehaviorPattern)
  | nextSuggestions (suggestions : List String)
  | duplicatePairs (duplicates : List DuplicatePair)
  | patternRecorded (pattern_id : String) (recorded : Bool)
deriving DecidableEq, Repr

/-- Outcome of one `fetch` under the abort timer. -/
inductive ApiOutcome where
  | success (d : ApiData)
  | httpFail (status : Nat) (bodyText : String)
  | timeout
  | netFail (message : String)

/-- The network oracle standing for `fetch` plus the timeout. -/
abbrev Net := ApiRequest → ApiOutcome

/-- `ApiResponse<T>` from memory-plugin.ts. -/
structure ApiResponse where
  data : Option ApiData := none
  error : Option String := none
  success : Option Bool := none

/-- `apiCall`: logs the outbound request, then maps the outcome exactly as the
source's branches do — an AbortError from the timer becomes
"Request timed out", a non-2xx response becomes "API error (status): body",
any other failure passes its message through, and a 2xx response is parsed
into `data` with `success: true`. -/
def apiCall (cfg : MemoryPluginConfig) (net : Net) (method : HttpMethod)
    (endpoint : String) (body : Option ApiBody) (log : List ApiRequest) :
    ApiResponse × List ApiRequest :=
  let req : ApiRequest :=
    { method := method, url := cfg.apiUrl ++ endpoint, endpoint := endpoint,
      authToken := cfg.authToken, body := body }
  let log := log ++ [req]
  match net req with
  | .success d => ({ data := some d, success := some true }, log)
  | .httpFail status text =>
    ({ error := some ("API error (" ++ toString status ++ "): " ++ text) }, log)
  | .timeout => ({ error := some "Request timed out" }, log)
  | .netFail msg => ({ error := some msg }, log)

/-- `searchMemories`: `POST /api/v1/memory/search {query, limit, threshold: 0.65}`. -/
def searchMemories (cfg : MemoryPluginConfig) (net : Net) (query : String)
    (limit : Nat) (log : List ApiRequest) : ApiResponse × List ApiRequest :=
  apiCall cfg net .post "/api/v1/memory/search"
    (some (.search query limit (0.65 : Rat))) log

/-- `createMemory`: `POST /api/v1/memory {title, content, memory_type, tags}`. -/
def createMemory (cfg : MemoryPluginConfig) (net : Net)
    (title content : String) (type : String) (tags : List String)
    (log : List ApiRequest) : ApiResponse × List ApiRequest :=
  apiCall cfg net .post "/api/v1/memory"
    (some (.createMem title content type tags)) log

/-- `listMemories`: `GET /api/v1/memory?limit=N`. -/
def listMemories (cfg : MemoryPluginConfig) (net : Net) (limit : Nat)
    (log : List ApiRequest) : ApiResponse × List ApiRequest :=
  apiCall cfg net .get ("/api/v1/memory?limit=" ++ toString limit) none log

/-- `getMemory`: `GET /api/v1/memory/{id}`. -/
def getMemory (cfg : MemoryPluginConfig) (net : Net) (id : String)
    (log : List ApiRequest) : ApiResponse × List ApiRequest :=
  apiCall cfg net .get ("/api/v1/memory/" ++ id) none log

/-- `deleteMemory`: `DELETE /api/v1/memory/{id}`. -/
def deleteMemory (cfg : MemoryPluginConfig) (net : Net) (id : String)
    (log : List ApiRequest) : ApiResponse × List ApiRequest :=
  apiCall cfg net .delete ("/api/v1/memory/" ++ id) none log

/-- `suggestTags`: `POST /api/v1/intelligence/suggest-tags`. -/
def suggestTags (cfg : MemoryPluginConfig) (net : Net) (memoryId : String)
    (log : List ApiRequest) : ApiResponse × List ApiRequest :=
  apiCall cfg net .post "/api/v1/intelligence/suggest-tags"
    (some (.suggestTags memoryId cfg.userId)) log

/-- `findRelated`: `POST /api/v1/intelligence/find-related`. -/
def findRelated (cfg : MemoryPluginConfig) (net : Net) (memoryId : String)
    (limit : Nat) (log : List ApiRequest) : ApiResponse × List ApiRequest :=
  apiCall cfg net .post "/api/v1/intelligence/find-related"
    (some (.findRelated memoryId cfg.userId limit)) log

/-- `recallBehavior`: `POST /api/v1/behavior/recall` with a fixed limit of 3. -/
def recallBehavior (cfg : MemoryPluginConfig) (net : Net)
    (currentTask : String) (currentDirectory : Option String)
    (log : List ApiRequest) : ApiResponse × List ApiRequest :=
  apiCall cfg net .post "/api/v1/behavior/recall"
    (some (.recall cfg.userId currentTask currentDirectory 3)) log

/-- `suggestNextAction`: `POST /api/v1/behavior/suggest`. -/
def suggestNextAction (cfg : MemoryPluginConfig) (net : Net)
    (taskDescription : String) (completedSteps : List String)
    (log : List ApiRequest) : ApiResponse × List ApiRequest :=
  apiCall cfg net .post "/api/v1/behavior/suggest"
    (some (.suggestNext cfg.userId taskDescription completedSteps)) log

/-- `detectDuplicates`: `POST /api/v1/intelligence/detect-duplicates` with
`max_pairs: 10`. -/
def detectDuplicates (cfg : MemoryPluginConfig) (net : Net) (threshold : Rat)
    (log : List ApiRequest) : ApiResponse × List ApiRequest :=
  apiCall cfg net .post "/api/v1/intelligence/detect-duplicates"
    (some (.detectDuplicates cfg.userId threshold 10)) log

/-- JS `x || default` on an optional number (0 is falsy). -/
def orDefaultRat (x : Option Rat) (d : Rat) : Rat :=
  match x with
  | some c => if c == 0 then d else c
  | none => d

/-- `recordPattern`: `POST /api/v1/behavior/record`; a missing context becomes
`{directory: process.cwd() || '/'}`, each action is stamped with the current
ISO time, and `confidence || 0.8` applies number truthiness. -/
def recordPattern (cfg : MemoryPluginConfig) (env : Env) (net : Net)
    (input : RecordPatternInput) (log : List ApiRequest) :
    ApiResponse × List ApiRequest :=
  apiCall cfg net .post "/api/v1/behavior/record"
    (some (.record cfg.userId input.trigger
      (match input.context with
       | some c => c
       | none => { directory := some env.cwd })
      (input.actions.map (fun action =>
        { tool := action, outcome := input.outcome, timestamp := env.nowIso }))
      input.outcome
      (orDefaultRat input.confidence (0.8 : Rat)))) log

/-- `MemoryIntent` from memory-plugin.ts. -/
inductive MemoryIntent where
  | search | create | list | delete | recall | suggest_tags | find_related
  | detect_duplicates | suggest_next | record_pattern | unknown
deriving DecidableEq, Repr

/-- `detectIntent`: the ordered substring if-chain over the lowercased query
(intelligence intents before behavioral before core CRUD). -/
def detectIntent (query : String) : MemoryIntent :=
  let q := jsLower query
  if includes q "suggest tags" || includes q "tag this" || includes q "what tags" ||
      includes q "auto tag" then .suggest_tags
  else if includes q "related" || includes q "similar" || includes q "like this" ||
      includes q "connections" then .find_related
  else if includes q "duplicate" || includes q "duplicates" || includes q "redundant" ||
      includes q "cleanup" then .detect_duplicates
  else if includes q "pattern" || includes q "workflow" || includes q "how did i" ||
      includes q "last time" then .recall
  else if includes q "what next" || includes q "next step" || includes q "suggest action" ||
      includes q "what should i" then .suggest_next
  else if includes q "record this" || includes q "save workflow" || includes q "learn this" ||
      includes q "that worked" then .record_pattern
  else if includes q "remember" || includes q "save" || includes q "store" ||
      includes q "note" then .create
  else if includes q "search" || includes q "find" || includes q "what do i know" ||
      includes q "look for" then .search
  else if includes q "list" || includes q "show" || includes q "my memories" then .list
  else if includes q "delete" || includes q "remove" || includes q "forget" then .delete
  else .unknown

-- The extraction regexes are interpreted by a small backtracking matcher
-- specialised to their shapes.

/-- Case-insensitive literal prefix strip (how a regex literal matches under
the `i` flag). -/
def ciStrip : List Char → List Char → Option (List Char)
  | [], s => some s
  | _ :: _, [] => none
  | a :: as, b :: bs => if a.toLower == b.toLower then ciStrip as bs else none

/-- The tail pattern `(.+)$`: without the `m` flag `$` only matches at the
very end and `.` never crosses a line terminator, so this succeeds exactly
when the remainder is non-empty and line-terminator free, capturing all of
it. -/
def dotPlusEnd (s : List Char) : Option (List Char) :=
  if s.isEmpty then none
  else if s.any lineTermChar then none
  else some s

/-- Greedy backtracking for `\s+`: `consumed` is the reversed whitespace run
consumed so far; characters are given back one at a time while the
continuation fails, never dropping below one consumed character. -/
def wsBack (consumed rest : List Char) (k : List Char → Option (List Char)) :
    Option (List Char) :=
  match k rest with
  | some g => some g
  | none =>
    match consumed with
    | [] => none
    | [_] => none
    | c :: cs => wsBack cs (c :: rest) k

/-- The pattern `\s+` followed by continuation `k`. -/
def wsPlus (s : List Char) (k : List Char → Option (List Char)) :
    Option (List Char) :=
  match s.takeWhile wsChar with
  | [] => none
  | run => wsBack run.reverse (s.dropWhile wsChar) k

/-- The optional group `(?:that\s+)?` of the `create` pattern, greedy:
prefer consuming `that` plus whitespace, fall back to the empty match. -/
def thatOpt (s : List Char) : Option (List Char) :=
  match ciStrip "that".toList s with
  | some r =>
    match wsPlus r dotPlusEnd with
    | some g => some g
    | none => dotPlusEnd s
  | none => dotPlusEnd s

/-- Anchored alternation `^(?:v1|v2|...)\s+` followed by continuation `k`,
trying alternatives in order with full backtracking between them. -/
def altVerbs (verbs : List String) (q : List Char)
    (k : List Char → Option (List Char)) : Option (List Char) :=
  match verbs with
  | [] => none
  | v :: vs =>
    match ciStrip v.toList q with
    | some r =>
      match wsPlus r k with
      | some g => some g
      | none => altVerbs vs q k
    | none => altVerbs vs q k

/-- `extractContent`: apply the intent's pattern when there is one (`create`:
`^(?:remember|save|store|note)\s+(?:that\s+)?(.+)$`, `search`:
`^(?:search|find|what do i know about|look for)\s+(.+)$`, `delete`:
`^(?:delete|remove|forget)\s+(.+)$`, all `/i`); the trimmed capture on a
match, otherwise the whole query. -/
def extractContent (query : String) (intent : MemoryIntent) : String :=
  match intent with
  | .create =>
    match altVerbs ["remember", "save", "store", "note"] query.toList thatOpt with
    | some g => jsTrim ⟨g⟩
    | none => query
  | .search =>
    match altVerbs ["search", "find", "what do i know about", "look for"]
        query.toList dotPlusEnd with
    | some g => jsTrim ⟨g⟩
    | none => query
  | .delete =>
    match altVerbs ["delete", "remove", "forget"] query.toList dotPlusEnd with
    | some g => jsTrim ⟨g⟩
    | none => query
  | _ => query

/-- Character class `[a-f0-9-]` with the `i` flag. -/
def uuidClassChar (c : Char) : Bool :=
  (0x61 ≤ c.toNat && c.toNat ≤ 0x66) || (0x41 ≤ c.toNat && c.toNat ≤ 0x46) ||
  (0x30 ≤ c.toNat && c.toNat ≤ 0x39) || c == '-'

/-- Unanchored search for `[a-f0-9-]{36}`: the leftmost position with 36
class characters wins. -/
def findUuid : List Char → Option String
  | [] => none
  | c :: rest =>
    let cand := (c :: rest).take 36
    if cand.length == 36 && cand.all uuidClassChar then some ⟨cand⟩
    else findUuid rest

/-- The lazy tail `(.+?)(?:\?|$)`: the shortest non-empty line-terminator-free
run after which either a question mark follows or the input ends. -/
def lazyDotUntil (acc : List Char) : List Char → Option (List Char)
  | [] => none
  | c :: rs =>
    if lineTermChar c then none
    else
      let acc2 := acc ++ [c]
      if rs.head? == some '?' || rs.isEmpty then some acc2
      else lazyDotUntil acc2 rs

/-- Unanchored scan for `(?:for|on|with)\s+(.+?)(?:\?|$)` (the task extractor
of `suggest_next`): leftmost position wins, alternatives in order. -/
def taskScan : List Char → Option (List Char)
  | [] => none
  | c :: rest =>
    let here := c :: rest
    let tryOne := fun (v : String) =>
      match ciStrip v.toList here with
      | some r => wsPlus r (lazyDotUntil [])
      | none => none
    match tryOne "for" with
    | some g => some g
    | none =>
      match tryOne "on" with
      | some g => some g
      | none =>
        match tryOne "with" with
        | some g => some g
        | none => taskScan rest

/-- Greedy `(.+)` with nothing after it: the maximal non-empty run of
non-line-terminator characters from the current position. -/
def dotPlusGreedy (s : List Char) : Option (List Char) :=
  match s.takeWhile (fun c => !lineTermChar c) with
  | [] => none
  | run => some run

/-- Backtracking core of `\s*` (like `wsBack` but zero consumed is allowed). -/
def wsStarBack (consumed rest : List Char)
    (k : List Char → Option (List Char)) : Option (List Char) :=
  match k rest with
  | some g => some g
  | none =>
    match consumed with
    | [] => none
    | c :: cs => wsStarBack cs (c :: rest) k

/-- The pattern `\s*` followed by continuation `k`, greedy with backtracking
down to zero characters. -/
def wsStar (s : List Char) (k : List Char → Option (List Char)) :
    Option (List Char) :=
  wsStarBack (s.takeWhile wsChar).reverse (s.dropWhile wsChar) k

/-- Unanchored scan for `(?:steps?|actions?|workflow):\s*(.+)` (the actions
extractor of `record_pattern`). -/
def labelScanActions : List Char → Option (List Char)
  | [] => none
  | c :: rest =>
    let here := c :: rest
    let tryLit := fun (v : String) =>
      match ciStrip v.toList here with
      | some (':' :: r2) => wsStar r2 dotPlusGreedy
      | _ => none
    match tryLit "steps" with
    | some g => some g
    | none =>
      match tryLit "step" with
      | some g => some g
      | none =>
        match tryLit "actions" with
        | some g => some g
        | none =>
          match tryLit "action" with
          | some g => some g
          | none =>
            match tryLit "workflow" with
            | some g => some g
            | none => labelScanActions rest

/-- Lazy `(.+?)` until the literal `steps`, `actions` (case-insensitively) or
the end of input, for the trigger extractor of `record_pattern`. -/
def lazyDotUntilLabel (acc : List Char) : List Char → Option (List Char)
  | [] => none
  | c :: rs =>
    if lineTermChar c then none
    else
      let acc2 := acc ++ [c]
      if (ciStrip "steps".toList rs).isSome || (ciStrip "actions".toList rs).isSome ||
          rs.isEmpty then some acc2
      else lazyDotUntilLabel acc2 rs

/-- Unanchored scan for `(?:for|when|trigger):\s*(.+?)(?:steps|actions|$)`. -/
def labelScanTrigger : List Char → Option (List Char)
  | [] => none
  | c :: rest =>
    let here := c :: rest
    let tryLit := fun (v : String) =>
      match ciStrip v.toList here with
      | some (':' :: r2) => wsStar r2 (lazyDotUntilLabel [])
      | _ => none
    match tryLit "for" with
    | some g => some g
    | none =>
      match tryLit "when" with
      | some g => some g
      | none =>
        match tryLit "trigger" with
        | some g => some g
        | none => labelScanTrigger rest

/-- JS `split(/[,;]/)`. -/
def splitCommaSemi (s : String) : List String :=
  (s.toList.splitOnP (fun c => c == ',' || c == ';')).map (fun l => (⟨l⟩ : String))

/-- `formatMemoryResponse` (its `action` argument is unused in the source
too). -/
def formatMemoryResponse (memories : List Memory) (action : String) : L0Response :=
  if memories.length == 0 then
    { message := "No memories found. Your knowledge base is ready to grow!"
      type := .memory
      related := some ["Try: \"remember that...\" to save something"] }
  else
    let formatted := String.intercalate "\n\n"
      ((memories.take 5).enum.map (fun im =>
        toString (im.1 + 1) ++ ". **" ++ im.2.title ++ "**\n   " ++
        im.2.content.take 100 ++ (if im.2.content.length > 100 then "..." else "")))
    { message := "Found " ++ toString memories.length ++ " relevant " ++
        (if memories.length == 1 then "memory" else "memories") ++ ":"
      type := .memory
      data := some (.s formatted)
      related := some ((memories.take 3).map (fun m => m.title)) }

/-- JSON image of a `Memory` for response `data` fields. -/
def jsonOfMemory (m : Memory) : JsonVal :=
  .obj [("id", .s m.id), ("title", .s m.title), ("content", .s m.content),
        ("memory_type", .s m.memory_type),
        ("tags", match m.tags with | some ts => .arr (ts.map JsonVal.s) | none => .undef),
        ("similarity", match m.similarity with | some r => .num r | none => .undef),
        ("created_at", match m.created_at with | some c => .s c | none => .undef)]

/-- JS truthiness of `result.error` (a non-empty string). -/
def errMsg (r : ApiResponse) : Option String :=
  match r.error with
  | some e => if e == "" then none else some e
  | none => none

/-- Optional-chaining projections: a payload of the wrong shape reads as
`undefined`, exactly as `result.data?.results` would. -/
def resultsOf : Option ApiData → Option (List Memory)
  | some (.searchResult rs _) => some rs
  | _ => none

def pageOf : Option ApiData → Option (List Memory)
  | some (.memoryPage ms) => some ms
  | _ => none

def memIdOf : Option ApiData → Option String
  | some (.memoryRec m) => some m.id
  | _ => none

def suggestionsOf : Option ApiData → Option (List TagSuggestion)
  | some (.tagSuggestions ss) => some ss
  | _ => none

def relatedOf : Option ApiData → Option (List RelatedMemory)
  | some (.relatedMemories rs) => some rs
  | _ => none

def patternsOf : Option ApiData → Option (List BehaviorPattern)
  | some (.behaviorPatterns ps) => some ps
  | _ => none

def nextOf : Option ApiData → Option (List String)
  | some (.nextSuggestions ss) => some ss
  | _ => none

def duplicatesOf : Option ApiData → Option (List DuplicatePair)
  | some (.duplicatePairs ds) => some ds
  | _ => none

def patternIdOf : Option ApiData → Option String
  | some (.patternRecorded pid _) => some pid
  | _ => none

/-- `memoryPluginHandler`: nested intent detection, content extraction, and
the per-intent branch.  The surrounding try/catch of the source (mapping a
thrown error to "Memory service error: …") is unreachable here because
`apiCall` is total — every failure is already a normal result.  Returns the
response together with the log of outbound HTTP calls. -/
def memoryPluginHandler (cfg : MemoryPluginConfig) (env : Env) (net : Net)
    (ctx : PluginContext) : L0Response × List ApiRequest :=
  let query := ctx.query
  let intent := detectIntent query
  let content := extractContent query intent
  match intent with
  | .search =>
    let (result, log) := searchMemories cfg net content 5 []
    match errMsg result with
    | some e =>
      ({ message := "Search failed: " ++ e, type := .memory,
         related := some ["Check your connection", "Try again"] }, log)
    | none => (formatMemoryResponse ((resultsOf result.data).getD []) "search", log)
  | .create =>
    if content == "" || content.length < 3 then
      ({ message := "What would you like me to remember? Tell me more!",
         type := .memory }, [])
    else
      let title := content.take 50 ++ (if content.length > 50 then "..." else "")
      let (result, log) := createMemory cfg net title content "context" [] []
      match errMsg result with
      | some e => ({ message := "Could not save: " ++ e, type := .memory }, log)
      | none =>
        ({ message := "Saved! \"" ++ title ++ "\"", type := .memory,
           data := some (.obj [
             ("id", match memIdOf result.data with | some i => .s i | none => .undef),
             ("title", .s title)]),
           related := some ["Search your memories", "List recent"] }, log)
  | .list =>
    let (result, log) := listMemories cfg net 10 []
    match errMsg result with
    | some e => ({ message := "Could not list memories: " ++ e, type := .memory }, log)
    | none => (formatMemoryResponse ((pageOf result.data).getD []) "list", log)
  | .delete =>
    match findUuid content.toList with
    | none =>
      ({ message := "To delete, I need the memory ID. Try \"list\" first to see IDs.",
         type := .memory, related := some ["list memories", "show my memories"] }, [])
    | some id =>
      let (result, log) := deleteMemory cfg net id []
      match errMsg result with
      | some e => ({ message := "Could not delete: " ++ e, type := .memory }, log)
      | none =>
        ({ message := "Deleted memory " ++ id.take 8 ++ "...", type := .memory }, log)
  | .recall =>
    let (result, log) := recallBehavior cfg net content none []
    match errMsg result, patternsOf result.data with
    | some _, _ | none, none | none, some [] =>
      ({ message := "No matching patterns found. Keep using the system to build your workflow memory!",
         type := .memory }, log)
    | none, some (p0 :: ps) =>
      let pats := p0 :: ps
      let lines := String.intercalate "\n"
        (pats.enum.map (fun ip =>
          toString (ip.1 + 1) ++ ". " ++ ip.2.trigger ++ " (" ++
          toString (mathRound (ip.2.confidence * 100)) ++ "% match)"))
      ({ message := "Found relevant workflow patterns:\n" ++ lines, type := .memory,
         workflow := some p0.actions }, log)
  | .suggest_tags =>
    match findUuid content.toList with
    | none =>
      ({ message := "ðŸ·ï¸ To suggest tags, I need a memory ID. Try \"list\" first to see your memories.",
         type := .memory, related := some ["list memories", "show recent"] }, [])
    | some id =>
      let (result, log) := suggestTags cfg net id []
      match errMsg result, suggestionsOf result.data with
      | some _, _ | none, none | none, some [] =>
        ({ message := "Could not generate tag suggestions. The memory may not have enough content.",
           type := .memory }, log)
      | none, some (s0 :: ss) =>
        let sugg := s0 :: ss
        let tagLines := String.intercalate "\n"
          (sugg.map (fun s =>
            "â€¢ " ++ s.tag ++ " (" ++ toString (mathRound (s.confidence * 100)) ++
            "% confidence)"))
        ({ message := "ðŸ·ï¸ Suggested tags for this memory:\n" ++ tagLines,
           type := .memory,
           data := some (.obj [("suggestions", .arr (sugg.map (fun s =>
             .obj [("tag", .s s.tag), ("confidence", .num s.confidence)])))]),
           related := some ["Apply these tags", "Search by tag"] }, log)
  | .find_related =>
    match findUuid content.toList with
    | none =>
      let (searchResult, log) := searchMemories cfg net content 5 []
      match resultsOf searchResult.data with
      | some (m0 :: ms) => (formatMemoryResponse (m0 :: ms) "related", log)
      | _ =>
        ({ message := "ðŸ”— To find related memories, describe what you\x27re looking for or provide a memory ID.",
           type := .memory }, log)
    | some id =>
      let (result, log) := findRelated cfg net id 5 []
      match errMsg result, relatedOf result.data with
      | some _, _ | none, none | none, some [] =>
        ({ message := "No related memories found. Your knowledge graph will grow as you add more!",
           type := .memory }, log)
      | none, some (r0 :: rs) =>
        let rel := r0 :: rs
        let relLines := String.intercalate "\n\n"
          (rel.enum.map (fun ir =>
            toString (ir.1 + 1) ++ ". **" ++ ir.2.memory.title ++ "** (" ++
            toString (mathRound (ir.2.similarity * 100)) ++ "% similar)\n   " ++
            ir.2.memory.content.take 80 ++ "..."))
        ({ message := "ðŸ”— Found " ++ toString rel.length ++ " related memories:\n\n" ++ relLines,
           type := .memory,
           related := some ((rel.take 3).map (fun r => r.memory.title)) }, log)
  | .detect_duplicates =>
    let (result, log) := detectDuplicates cfg net (0.85 : Rat) []
    match errMsg result with
    | some e =>
      ({ message := "Could not scan for duplicates: " ++ e, type := .memory }, log)
    | none =>
      match duplicatesOf result.data with
      | none | some [] =>
        ({ message := "âœ¨ No duplicates found! Your memory collection is clean.",
           type := .memory,
           related := some ["List memories", "Search for something"] }, log)
      | some (d0 :: ds) =>
        let dup := d0 :: ds
        let dupLines := String.intercalate "\n"
          (dup.enum.map (fun idp =>
            toString (idp.1 + 1) ++ ". \"" ++ idp.2.memory1.title ++ "\" â†” \"" ++
            idp.2.memory2.title ++ "\" (" ++
            toString (mathRound (idp.2.similarity * 100)) ++ "% similar)"))
        ({ message := "ðŸ” Found " ++ toString dup.length ++
             " potential duplicates:\n\n" ++ dupLines ++
             "\n\nðŸ’¡ Say \"delete [id]\" to remove unwanted copies.",
           type := .memory,
           data := some (.obj [("duplicates", .arr (dup.map (fun d =>
             .obj [("memory1", jsonOfMemory d.memory1),
                   ("memory2", jsonOfMemory d.memory2),
                   ("similarity", .num d.similarity)])))]) }, log)
  | .suggest_next =>
    let task :=
      match taskScan content.toList with
      | some g => (⟨g⟩ : String)
      | none => content
    let (result, log) := suggestNextAction cfg net task [] []
    match errMsg result, nextOf result.data with
    | some _, _ | none, none | none, some [] =>
      ({ message := "ðŸ¤” I don\x27t have enough context yet to suggest next steps. Keep working and I\x27ll learn your patterns!",
         type := .memory }, log)
    | none, some (s0 :: ss) =>
      let sugg := s0 :: ss
      let suggLines := String.intercalate "\n"
        (sugg.enum.map (fun is => toString (is.1 + 1) ++ ". " ++ is.2))
      ({ message := "ðŸ’¡ Based on your patterns, here\x27s what to do next:\n\n" ++ suggLines,
         type := .memory,
         workflow := some sugg,
         related := some ["Show my patterns", "Record this workflow"] }, log)
  | .record_pattern =>
    let actionsMatch := labelScanActions content.toList
    let triggerMatch := labelScanTrigger content.toList
    match actionsMatch, triggerMatch with
    | none, none =>
      ({ message := "ðŸ“ To record a workflow pattern, tell me:\nâ€¢ What triggered it: \"for: [task description]\"\nâ€¢ What steps worked: \"steps: [action1, action2, ...]\"\n\nExample: \"record this for: debugging auth, steps: check logs, verify tokens, test endpoint\"",
         type := .memory }, [])
    | _, _ =>
      let trigger :=
        match triggerMatch with
        | some g =>
          let t := jsTrim (⟨g⟩ : String)
          if t == "" then content.take 50 else t
        | none => content.take 50
      let actions :=
        match actionsMatch with
        | some g =>
          ((splitCommaSemi (⟨g⟩ : String)).map jsTrim).filter (fun a => !(a == ""))
        | none => [content]
      let (result, log) := recordPattern cfg env net
        { trigger := trigger, actions := actions, outcome := "success",
          confidence := some (0.8 : Rat) } []
      match errMsg result with
      | some e => ({ message := "Could not record pattern: " ++ e, type := .memory }, log)
      | none =>
        ({ message := "âœ… Workflow pattern recorded!\n\nðŸ“Œ Trigger: \"" ++ trigger ++
             "\"\nðŸ“‹ Steps: " ++ String.intercalate " â†’ " actions ++
             "\n\nI\x27ll suggest this pattern when you work on similar tasks.",
           type := .memory,
           data := some (.obj [("pattern_id",
             match patternIdOf result.data with | some p => .s p | none => .undef)]),
           related := some ["Show my patterns", "What\x27s my workflow for..."] }, log)
  | .unknown =>
    let (fallbackResult, log) := searchMemories cfg net query 3 []
    match resultsOf fallbackResult.data with
    | some (m0 :: ms) => (formatMemoryResponse (m0 :: ms) "search", log)
    | _ =>
      ({ message := "I can help you with your memories! Try:\nâ€¢ \"remember that...\" to save\nâ€¢ \"search for...\" to find\nâ€¢ \"show my memories\" to list",
         type := .help }, log)

/-- The `memoryServicesPlugin` descriptor (38 triggers, priority 100); the
handler closes over the configuration, ambient environment and network
oracle, discarding the request log (the registry-facing handler type has no
log channel), and never rejects because every branch is total. -/
def memoryServicesPlugin (cfg : MemoryPluginConfig) (env : Env) (net : Net) :
    L0Plugin :=
  { metadata :=
      { name := "memory-services", version := "1.0.0",
        description := "LanOnasis Memory-as-a-Service integration - context-aware memory operations",
        author := some "LanOnasis",
        keywords := ["memory", "context", "knowledge", "semantic-search", "lanonasis", "maas"] },
    triggers := [
      "remember", "recall", "find", "search", "what do i know",
      "save", "store", "note", "list", "show", "my memories",
      "delete", "remove", "forget",
      "suggest tags", "tag this", "auto tag", "what tags",
      "related", "similar", "like this", "connections",
      "duplicate", "duplicates", "redundant", "cleanup",
      "pattern", "workflow", "how did i", "last time",
      "what next", "next step", "suggest action", "what should i",
      "record this", "save workflow", "learn this", "that worked"],
    priority := some 100,
    handler := fun ctx => .ok (memoryPluginHandler cfg env net ctx).1 }

end MemoryPlugin

-- ===========================================================================
-- Specification-level definitions (written from the spec's words, to be
-- compared with the source-derived `findMatching`)
-- ===========================================================================

/-- Spec §3: the trigger-length part of MatchScore — "the sum of the
character-lengths of every trigger phrase that appears as a substring of the
lowercased query" (containment tested case-insensitively). -/
def trigLenSumSpec (lowerQuery : String) (p : L0Plugin) : Nat :=
  ((p.triggers.filter (fun t => includes lowerQuery (jsLower t))).map
    String.length).sum

/-- Spec §3: MatchScore — the trigger-length sum "plus the plugin's
`priority`". -/
def matchScoreSpec (lowerQuery : String) (p : L0Plugin) : Int :=
  (trigLenSumSpec lowerQuery p : Int) + p.priority.getD 0

/-- Spec §4.1 `findMatching`, written from the spec's words: lowercase the
query once, keep only enabled registrations, drop plugins whose
trigger-length sum is zero regardless of priority, and stably sort the rest
by descending MatchScore. -/
def findMatchingSpec (query : String) (st : PluginManager) : List L0Plugin :=
  let lq := jsLower query
  let enabledPlugins := (st.entries.filter (fun e => e.2.enabled)).map
    (fun e => e.2.plugin)
  let kept := enabledPlugins.filter (fun p => trigLenSumSpec lq p != 0)
  (sortDesc (kept.map (fun p => (p, matchScoreSpec lq p)))).map (fun m => m.1)

/-- Well-formedness of registry states reachable through the API: every map
key equals its plugin's metadata name (`register` keys the map by
`plugin.metadata.name` and nothing ever changes a key or a plugin in
place), and keys are pairwise distinct (a JS `Map` cannot hold duplicate
keys, and `register` refuses an existing name). -/
def WF (st : PluginManager) : Prop :=
  (∀ e ∈ st.entries, e.1 = e.2.plugin.metadata.name) ∧
  st.entries.Pairwise (fun a b => a.1 ≠ b.1)

-- ===========================================================================
-- Concrete fixtures used by claim witnesses and counterexamples
-- ===========================================================================

/-- A network oracle on which every call times out. -/
def netTimeout : MemoryPlugin.Net := fun _ => .timeout

/-- The default memory-plugin configuration (no environment overrides). -/
def memCfg : MemoryPlugin.MemoryPluginConfig := {}

def memEnv : MemoryPlugin.Env := {}

def c8query : String := "remember that the deploy key rotates monthly"

/-- A plugin whose handler always throws (rejects). -/
def throwingPlugin : L0Plugin :=
  { metadata := { name := "boom", version := "1.0.0", description := "always throws" },
    triggers := ["boomtrig"],
    handler := fun _ => .error "handler exploded" }

def throwingState : PluginManager := ⟨[("boom", ⟨throwingPlugin, true, 0⟩)]⟩

def tiePluginA : L0Plugin :=
  { metadata := { name := "a", version := "1.0.0", description := "first" },
    triggers := ["aa"],
    handler := fun _ => .ok { message := "A", type := .orchestration },
    priority := some 0 }

def tiePluginB : L0Plugin :=
  { metadata := { name := "b", version := "1.0.0", description := "second" },
    triggers := ["bb"],
    handler := fun _ => .ok { message := "B", type := .orchestration },
    priority := some 0 }

def tieState : PluginManager :=
  ⟨[("a", ⟨tiePluginA, true, 0⟩), ("b", ⟨tiePluginB, true, 1⟩)]⟩

def wMetaA : PluginMetadata := { name := "devtool", version := "1.0.0", description := "deploys" }

def wMetaB : PluginMetadata := { name := "shiptool", version := "1.0.0", description := "ships" }

def wHandler : PluginHandler := fun _ => .ok { message := "ok", type := .orchestration }

def wPlugin : L0Plugin :=
  { metadata := { name := "w", version := "1.0.0", description := "witness" },
    triggers := ["wtrig"], handler := wHandler }

def wState : PluginManager := ⟨[("w", ⟨wPlugin, true, 0⟩)]⟩

/-- A descriptor failing validation (empty name). -/
def badPlugin : L0Plugin :=
  { metadata := { name := "", version := "1.0.0", description := "nameless" },
    triggers := ["t"], handler := wHandler }

def disPlugin : L0Plugin :=
  { metadata := { name := "dis", version := "1.0.0", description := "disabled one" },
    triggers := ["dtrig"], handler := wHandler }

def disState : PluginManager := ⟨[("dis", ⟨disPlugin, false, 0⟩)]⟩

/-- A plugin triggered by "debug" with a huge priority, for the precedence
witness. -/
def helpPlugin : L0Plugin :=
  { metadata := { name := "debugger", version := "1.0.0", description := "debug plugin" },
    triggers := ["debug"],
    handler := fun _ => .ok { message := "plugin handled it", type := .orchestration },
    priority := some 1000 }

def helpState : PluginManager := ⟨[("debugger", ⟨helpPlugin, true, 0⟩)]⟩

def visPluginA : L0Plugin :=
  { metadata := { name := "alpha", version := "1.0.0", description := "a" },
    triggers := ["alphatrig"], handler := wHandler }

def visPluginB : L0Plugin :=
  { metadata := { name := "beta", version := "1.0.0", description := "b" },
    triggers := ["betatrig"], handler := wHandler }

def visState : PluginManager :=
  ⟨[("alpha", ⟨visPluginA, true, 0⟩), ("beta", ⟨visPluginB, true, 1⟩)]⟩

/-- Like `visState` but with "alpha" registered disabled. -/
def visStateMixed : PluginManager :=
  ⟨[("alpha", ⟨visPluginA, false, 0⟩), ("beta", ⟨visPluginB, true, 1⟩)]⟩

-- ===========================================================================
-- Supporting lemmas
-- ===========================================================================

/-- The scoring loop of `findMatching` computes the spec's sum of matching
trigger lengths. -/
theorem triggerScore_eq_sum (lq : String) (ts : List String) :
    triggerScore lq ts
      = ((ts.filter (fun t => includes lq (jsLower t))).map String.length).sum := by
  have h : ∀ (l : List String) (acc : Nat),
      l.foldl (fun score t => if includes lq (jsLower t) then score + t.length else score) acc
        = acc + ((l.filter (fun t => includes lq (jsLower t))).map String.length).sum := by
    intro l
    induction l with
    | nil => intro acc; simp
    | cons t l ih =>
      intro acc
      by_cases hc : includes lq (jsLower t) = true
      · simp only [List.foldl_cons, hc, if_true, List.filter_cons, List.map_cons,
          List.sum_cons, ih]
        omega
      · have hc' : includes lq (jsLower t) = false := by
          cases hx : includes lq (jsLower t)
          · rfl
          · exact absurd hx hc
        simp only [List.foldl_cons, hc', List.filter_cons, ih, Bool.false_eq_true,
          if_false]
  simpa [triggerScore] using h ts 0

/-- Unfolding equations of the collection loop. -/
theorem collectMatches_cons_disabled {lq : String} {e : String × PluginRegistration}
    {rest : List (String × PluginRegistration)} (h : e.2.enabled = false) :
    collectMatches lq (e :: rest) = collectMatches lq rest := by
  simp [collectMatches, h]

theorem collectMatches_cons_skip {lq : String} {e : String × PluginRegistration}
    {rest : List (String × PluginRegistration)} (h : e.2.enabled = true)
    (h0 : triggerScore lq e.2.plugin.triggers = 0) :
    collectMatches lq (e :: rest) = collectMatches lq rest := by
  simp [collectMatches, h, h0]

theorem collectMatches_cons_keep {lq : String} {e : String × PluginRegistration}
    {rest : List (String × PluginRegistration)} (h : e.2.enabled = true)
    (h0 : 0 < triggerScore lq e.2.plugin.triggers) :
    collectMatches lq (e :: rest)
      = (e.2.plugin, (triggerScore lq e.2.plugin.triggers : Int)
          + e.2.plugin.priority.getD 0) :: collectMatches lq rest := by
  simp [collectMatches, h, h0]

/-- The match-collection loop of `findMatching` equals the spec's
filter/score pipeline. -/
theorem collectMatches_eq (lq : String) (entries : List (String × PluginRegistration)) :
    collectMatches lq entries =
      ((((entries.filter (fun e => e.2.enabled)).map (fun e => e.2.plugin)).filter
          (fun p => trigLenSumSpec lq p != 0)).map
        (fun p => (p, matchScoreSpec lq p))) := by
  induction entries with
  | nil => rfl
  | cons e rest ih =>
    by_cases he : e.2.enabled = true
    · have hscore : triggerScore lq e.2.plugin.triggers = trigLenSumSpec lq e.2.plugin :=
        triggerScore_eq_sum lq e.2.plugin.triggers
      by_cases hz : trigLenSumSpec lq e.2.plugin = 0
      · have hdrop : ¬ ((trigLenSumSpec lq e.2.plugin != 0) = true) := by simp [hz]
        rw [collectMatches_cons_skip he (by rw [hscore, hz]),
          @List.filter_cons_of_pos _ (fun e => e.2.enabled) e rest he, List.map_cons,
          @List.filter_cons_of_neg _ (fun p => trigLenSumSpec lq p != 0) e.2.plugin _ hdrop]
        exact ih
      · have h0 : 0 < triggerScore lq e.2.plugin.triggers := by
          rw [hscore]; omega
        have hkeep : ((trigLenSumSpec lq e.2.plugin != 0) = true) := by simp [hz]
        rw [collectMatches_cons_keep he h0,
          @List.filter_cons_of_pos _ (fun e => e.2.enabled) e rest he, List.map_cons,
          @List.filter_cons_of_pos _ (fun p => trigLenSumSpec lq p != 0) e.2.plugin _ hkeep,
          List.map_cons, ih, hscore]
        rfl
    · have he' : e.2.enabled = false := by
        cases hx : e.2.enabled
        · rfl
        · exact absurd hx he
      rw [collectMatches_cons_disabled he',
        @List.filter_cons_of_neg _ (fun e => e.2.enabled) e rest (by simp [he']), ih]

/-- Membership through the stable insertion. -/
theorem mem_insertDesc {x y : L0Plugin × Int} {l : List (L0Plugin × Int)} :
    x ∈ insertDesc y l ↔ x = y ∨ x ∈ l := by
  induction l with
  | nil => simp [insertDesc]
  | cons z zs ih =>
    simp only [insertDesc]
    split
    · simp only [List.mem_cons]
    · simp only [List.mem_cons, ih]
      tauto

theorem mem_sortDesc_aux (x : L0Plugin × Int) (l acc : List (L0Plugin × Int)) :
    (x ∈ l.foldl (fun a y => insertDesc y a) acc) ↔ (x ∈ acc ∨ x ∈ l) := by
  induction l generalizing acc with
  | nil => simp
  | cons y ys ih =>
    simp only [List.foldl_cons]
    rw [ih]
    simp only [mem_insertDesc, List.mem_cons]
    tauto

/-- The stable sort is a permutation at the level of membership. -/
theorem mem_sortDesc (x : L0Plugin × Int) (l : List (L0Plugin × Int)) :
    (x ∈ sortDesc l) ↔ (x ∈ l) := by
  simp [sortDesc, mem_sortDesc_aux]

/-- Every plugin returned by `findMatching` comes from an enabled
registration of the state. -/
theorem findMatching_mem {q : String} {st : PluginManager} {p : L0Plugin}
    (h : p ∈ findMatching q st) :
    ∃ e ∈ st.entries, e.2.enabled = true ∧ e.2.plugin = p := by
  unfold findMatching at h
  obtain ⟨pr, hm, rfl⟩ := List.mem_map.mp h
  rw [mem_sortDesc, collectMatches_eq] at hm
  obtain ⟨p', hp', rfl⟩ := List.mem_map.mp hm
  obtain ⟨hp'mem, _⟩ := List.mem_filter.mp hp'
  obtain ⟨e, he, rfl⟩ := List.mem_map.mp hp'mem
  obtain ⟨hemem, heen⟩ := List.mem_filter.mp he
  exact ⟨e, hemem, heen, rfl⟩

/-- Every metadata row returned by `list` comes from an enabled
registration. -/
theorem list_mem {st : PluginManager} {m : PluginMetadata} (h : m ∈ list st) :
    ∃ e ∈ st.entries, e.2.enabled = true ∧ e.2.plugin.metadata = m := by
  unfold list at h
  obtain ⟨e, he, rfl⟩ := List.mem_map.mp h
  obtain ⟨hem, hen⟩ := List.mem_filter.mp he
  exact ⟨e, hem, hen, rfl⟩

/-- The in-place flag update of `setEnabled` leaves the plugin stored under
the updated key untouched. -/
theorem find?_setEnabled_map (n : String) (b : Bool)
    (l : List (String × PluginRegistration)) :
    ((l.map (fun e => if e.1 == n then (e.1, { e.2 with enabled := b }) else e)).find?
        (fun e => e.1 == n)).map (fun e => e.2.plugin)
      = (l.find? (fun e => e.1 == n)).map (fun e => e.2.plugin) := by
  induction l with
  | nil => rfl
  | cons e rest ih =>
    cases hk : (e.1 == n) with
    | true =>
      simp only [List.map_cons, List.find?, hk, Bool.true_eq_false,
        Bool.false_eq_true, reduceIte]
      rfl
    | false =>
      simp only [List.map_cons, List.find?, hk, Bool.true_eq_false,
        Bool.false_eq_true, reduceIte]
      exact ih

/-- `get` is unaffected by `setEnabled` on the same name. -/
theorem get_setEnabled (n : String) (b : Bool) (st : PluginManager) :
    get n ((setEnabled n b st).2) = get n st := by
  unfold setEnabled
  cases hg : mapGet n st.entries with
  | none => rfl
  | some reg =>
    show get n ⟨st.entries.map _⟩ = get n st
    unfold get mapGet
    rw [Option.map_map, Option.map_map]
    exact find?_setEnabled_map n b st.entries

/-- When `mapGet` misses, no entry carries the key. -/
theorem mapGet_none_keys {n : String} {l : List (String × PluginRegistration)}
    (h : mapGet n l = none) : ∀ e ∈ l, (e.1 == n) = false := by
  intro e he
  unfold mapGet at h
  have hfind : l.find? (fun e => e.1 == n) = none := by
    cases hx : l.find? (fun e => e.1 == n) with
    | none => rfl
    | some v => rw [hx] at h; simp at h
  have := List.find?_eq_none.mp hfind e he
  simpa using this

theorem collectMatches_nil (lq : String) : collectMatches lq [] = [] := rfl

/-- With pairwise-distinct keys, entries are determined by their key. -/
theorem pairwise_key_inj {l : List (String × PluginRegistration)}
    (hp : l.Pairwise (fun a b => a.1 ≠ b.1)) :
    ∀ e ∈ l, ∀ f ∈ l, e.1 = f.1 → e = f := by
  induction l with
  | nil => intro e he; cases he
  | cons a rest ih =>
    have hhead := (List.pairwise_cons.mp hp).1
    have htail := (List.pairwise_cons.mp hp).2
    intro e he f hf hef
    rcases List.mem_cons.mp he with rfl | he2
    · rcases List.mem_cons.mp hf with rfl | hf2
      · rfl
      · exact absurd hef (hhead f hf2)
    · rcases List.mem_cons.mp hf with rfl | hf2
      · exact absurd hef.symm (hhead e he2)
      · exact ih htail e he2 f hf2 hef

/-- With pairwise-distinct keys, `find?` by an entry's own key yields that
entry. -/
theorem find?_key_of_mem {l : List (String × PluginRegistration)}
    (hp : l.Pairwise (fun a b => a.1 ≠ b.1))
    {e : String × PluginRegistration} (he : e ∈ l) :
    l.find? (fun x => x.1 == e.1) = some e := by
  induction l with
  | nil => cases he
  | cons a rest ih =>
    have hhead := (List.pairwise_cons.mp hp).1
    have htail := (List.pairwise_cons.mp hp).2
    rcases List.mem_cons.mp he with rfl | he2
    · exact List.find?_cons_of_pos _ (by simp)
    · have hne : ¬ ((a.1 == e.1) = true) := by
        simp only [beq_iff_eq]
        exact hhead e he2
      rw [@List.find?_cons_of_neg _ (fun x => x.1 == e.1) a rest hne]
      exact ih htail he2

/-- With pairwise-distinct keys, `get` by an entry's own key yields that
entry's plugin. -/
theorem get_of_mem {st : PluginManager}
    (hp : st.entries.Pairwise (fun a b => a.1 ≠ b.1))
    {e : String × PluginRegistration} (he : e ∈ st.entries) :
    get e.1 st = some e.2.plugin := by
  unfold get mapGet
  rw [find?_key_of_mem hp he]
  rfl

/-- Stable insertion preserves descending sortedness of the score column. -/
theorem insertDesc_sorted {x : L0Plugin × Int} {l : List (L0Plugin × Int)}
    (h : l.Pairwise (fun a b => b.2 ≤ a.2)) :
    (insertDesc x l).Pairwise (fun a b => b.2 ≤ a.2) := by
  induction l with
  | nil => simp [insertDesc]
  | cons y ys ih =>
    simp only [insertDesc]
    split
    · rename_i hgt
      refine List.pairwise_cons.mpr ⟨?_, h⟩
      intro z hz
      rcases List.mem_cons.mp hz with rfl | hz2
      · omega
      · have hy := (List.pairwise_cons.mp h).1 z hz2
        omega
    · rename_i hle
      refine List.pairwise_cons.mpr ⟨?_, ih (List.pairwise_cons.mp h).2⟩
      intro z hz
      rcases mem_insertDesc.mp hz with rfl | hz2
      · omega
      · exact (List.pairwise_cons.mp h).1 z hz2

theorem foldl_insertDesc_sorted (l : List (L0Plugin × Int)) :
    ∀ acc : List (L0Plugin × Int), acc.Pairwise (fun a b => b.2 ≤ a.2) →
      (l.foldl (fun a y => insertDesc y a) acc).Pairwise (fun a b => b.2 ≤ a.2) := by
  induction l with
  | nil => intro acc hacc; simpa using hacc
  | cons y ys ih => intro acc hacc; exact ih _ (insertDesc_sorted hacc)

/-- The stable sort really is descending in the score column. -/
theorem sortDesc_sorted (l : List (L0Plugin × Int)) :
    (sortDesc l).Pairwise (fun a b => b.2 ≤ a.2) :=
  foldl_insertDesc_sorted l [] List.Pairwise.nil

/-- `findMatching` returns plugins in non-increasing MatchScore order. -/
theorem findMatching_sorted (q : String) (st : PluginManager) :
    (findMatching q st).Pairwise
      (fun a b => matchScoreSpec (jsLower q) b ≤ matchScoreSpec (jsLower q) a) := by
  unfold findMatching
  rw [List.pairwise_map]
  have hscore : ∀ pr ∈ sortDesc (collectMatches (jsLower q) st.entries),
      pr.2 = matchScoreSpec (jsLower q) pr.1 := by
    intro pr hpr
    rw [mem_sortDesc, collectMatches_eq] at hpr
    obtain ⟨p, hp, rfl⟩ := List.mem_map.mp hpr
    rfl
  refine List.Pairwise.imp_of_mem ?_ (sortDesc_sorted (collectMatches (jsLower q) st.entries))
  intro a b ha hb hle
  rw [← hscore a ha, ← hscore b hb]
  exact hle

-- ===========================================================================
-- Claim theorems
-- ===========================================================================

/-- C1 (evidence for the code bug): the spec requires an unexpected exception
inside a plugin handler to be caught at the registry's `execute` boundary (or
by the router) and converted into a generic failure Response, so that
`L0Orchestrator.query` and `PluginManager.execute` never propagate it.  The
code has no try/catch at either place: on the failing input — a registered,
enabled plugin whose handler always throws, queried with text matching its
trigger and no built-in classifier — both `execute` and `query` evaluate to
the propagated error, not to a Response. -/
theorem C1_handler_exception_propagates :
    execute "boomtrig please" none throwingState = .error "handler exploded" ∧
    L0Orchestrator.query "boomtrig please" none throwingState
      = .error "handler exploded" :=
  ⟨rfl, rfl⟩

/-- C2: built-in classifiers take precedence over plugins.  Whenever any
built-in classifier matches the lowercased query, `L0Orchestrator.query` is
independent of the plugin registry state (so no plugin handler can influence
or produce the result), and when the help classifier matches — "a query
containing a built-in trigger word (e.g. help)" in the spec's sense — the
result is exactly the built-in help generator's Response. -/
theorem C2_builtin_classifiers_precede_plugins (q : String) (options : Option Opts)
    (st st' : PluginManager) (h : builtinMatches (jsLower q) = true) :
    L0Orchestrator.query q options st = L0Orchestrator.query q options st' ∧
    (isHelpRequest (jsLower q) = true →
      L0Orchestrator.query q options st = .ok (getHelp q)) := by
  constructor
  · unfold L0Orchestrator.query
    cases h1 : isHelpRequest (jsLower q) with
    | true => simp [h1]
    | false =>
      cases h2 : isCodeRequest (jsLower q) with
      | true => simp [h1, h2]
      | false =>
        cases h3 : isMemoryRequest (jsLower q) with
        | true => simp [h1, h2, h3]
        | false =>
          cases h4 : isCampaignRequest (jsLower q) with
          | true => simp [h1, h2, h3, h4]
          | false =>
            cases h5 : isContentRequest (jsLower q) with
            | true => simp [h1, h2, h3, h4, h5]
            | false =>
              cases h6 : isTrendRequest (jsLower q) with
              | true => simp [h1, h2, h3, h4, h5, h6]
              | false =>
                exfalso
                unfold builtinMatches at h
                rw [h1, h2, h3, h4, h5, h6] at h
                simp at h
  · intro hh
    unfold L0Orchestrator.query
    simp [hh]

/-- C2 witness: "help me debug this" matches the built-in help classifier and
the registered "debug"-trigger plugin (priority 1000); the query is answered
by `getHelp`, identically over the plugin-carrying state and the empty
state. -/
theorem C2_builtin_classifiers_precede_plugins_witness :
    builtinMatches (jsLower "help me debug this") = true ∧
    L0Orchestrator.query "help me debug this" none helpState
      = L0Orchestrator.query "help me debug this" none ⟨[]⟩ ∧
    L0Orchestrator.query "help me debug this" none helpState
      = .ok (getHelp "help me debug this") :=
  ⟨by decide,
   (C2_builtin_classifiers_precede_plugins "help me debug this" none helpState ⟨[]⟩
     (by decide)).1,
   (C2_builtin_classifiers_precede_plugins "help me debug this" none helpState ⟨[]⟩
     (by decide)).2 (by decide)⟩

/-- C3 counterexample: two enabled plugins with single triggers "aa" and "bb"
(both length 2, both priority 0) and the query "aa bb".  `findMatching`
ranks A (registered first) before B, yet L_A + P_A > L_B + P_B is false —
so "A ranks before B if and only if L_A + P_A > L_B + P_B" fails in the
only-if direction on ties. -/
theorem C3_ranking_iff_fails_on_tie :
    findMatching "aa bb" tieState = [tiePluginA, tiePluginB] ∧
    ¬(("aa".length : Int) + 0 > ("bb".length : Int) + 0) :=
  ⟨rfl, by decide⟩

/-- C3 (amended): for two enabled plugins A (registered first) and B, each
with a single non-empty trigger contained in the query, `findMatching` ranks
B before A iff L_B + P_B > L_A + P_A, and otherwise (that is, when
L_A + P_A > L_B + P_B, or the sums tie) keeps A before B: strictly greater
trigger-length-plus-priority wins, and ties are broken by registration
order. -/
theorem C3_ranking_with_registration_tiebreak
    (mA mB : PluginMetadata) (tA tB : String) (pA pB : Int)
    (hA hB : PluginHandler) (q : String) (t1 t2 : Nat)
    (hlenA : 0 < tA.length) (hlenB : 0 < tB.length)
    (hinA : includes (jsLower q) (jsLower tA) = true)
    (hinB : includes (jsLower q) (jsLower tB) = true) :
    findMatching q ⟨[(mA.name, ⟨⟨mA, [tA], hA, some pA⟩, true, t1⟩),
                     (mB.name, ⟨⟨mB, [tB], hB, some pB⟩, true, t2⟩)]⟩
      = if (tB.length : Int) + pB > (tA.length : Int) + pA
        then [⟨mB, [tB], hB, some pB⟩, ⟨mA, [tA], hA, some pA⟩]
        else [⟨mA, [tA], hA, some pA⟩, ⟨mB, [tB], hB, some pB⟩] := by
  have hsA : triggerScore (jsLower q) [tA] = tA.length := by
    simp [triggerScore, hinA]
  have hsB : triggerScore (jsLower q) [tB] = tB.length := by
    simp [triggerScore, hinB]
  have hposA : 0 < triggerScore (jsLower q) [tA] := by rw [hsA]; exact hlenA
  have hposB : 0 < triggerScore (jsLower q) [tB] := by rw [hsB]; exact hlenB
  unfold findMatching
  rw [collectMatches_cons_keep rfl hposA, collectMatches_cons_keep rfl hposB,
    collectMatches_nil, hsA, hsB]
  by_cases hcmp : (tB.length : Int) + pB > (tA.length : Int) + pA
  · simp [sortDesc, insertDesc, hcmp]
  · simp [sortDesc, insertDesc, hcmp]

/-- C3 witness: triggers "deploy" (length 6, priority 0, registered first)
and "ship" (length 4, priority 1) on the query "deploy the ship": 4 + 1 > 6
+ 0 is false, so the first-registered higher-sum plugin is ranked first. -/
theorem C3_ranking_with_registration_tiebreak_witness :
    0 < "deploy".length ∧ 0 < "ship".length ∧
    includes (jsLower "deploy the ship") (jsLower "deploy") = true ∧
    includes (jsLower "deploy the ship") (jsLower "ship") = true ∧
    findMatching "deploy the ship"
        ⟨[(wMetaA.name, ⟨⟨wMetaA, ["deploy"], wHandler, some 0⟩, true, 0⟩),
          (wMetaB.name, ⟨⟨wMetaB, ["ship"], wHandler, some 1⟩, true, 1⟩)]⟩
      = if ("ship".length : Int) + 1 > ("deploy".length : Int) + 0
        then [⟨wMetaB, ["ship"], wHandler, some 1⟩, ⟨wMetaA, ["deploy"], wHandler, some 0⟩]
        else [⟨wMetaA, ["deploy"], wHandler, some 0⟩, ⟨wMetaB, ["ship"], wHandler, some 1⟩] :=
  ⟨by decide, by decide, by decide, by decide,
   C3_ranking_with_registration_tiebreak wMetaA wMetaB "deploy" "ship" 0 1
     wHandler wHandler "deploy the ship" 0 1
     (by decide) (by decide) (by decide) (by decide)⟩

/-- C4: for every valid descriptor, `register` followed immediately by
`has(name)` returns true; and for every registry already containing a plugin
named n, a second `register` of a plugin named n returns false and leaves the
registry — hence the first registration's enabled flag, registeredAt and
descriptor — entirely unchanged. -/
theorem C4_register_then_has_and_duplicate_noop (p : L0Plugin) (now : Nat)
    (st : PluginManager) :
    (validatePlugin p = true → has p.metadata.name (register p now st).2 = true) ∧
    (has p.metadata.name st = true → register p now st = (false, st)) := by
  constructor
  · intro hv
    by_cases hh : mapHas p.metadata.name st.entries
    · have hr : register p now st = (false, st) := by simp [register, hh]
      rw [hr]
      exact hh
    · have hr : register p now st
          = (true, ⟨st.entries ++ [(p.metadata.name, ⟨p, true, now⟩)]⟩) := by
        simp [register, hh, hv]
      rw [hr]
      unfold has mapHas
      simp [List.any_append]
  · intro hh
    unfold has at hh
    simp [register, hh]

/-- C4 witness: `wState` already holds the valid plugin "w": registering it
again returns false with the state untouched, while `has` still answers
true. -/
theorem C4_register_then_has_and_duplicate_noop_witness :
    validatePlugin wPlugin = true ∧ has wPlugin.metadata.name wState = true ∧
    has wPlugin.metadata.name (register wPlugin 5 wState).2 = true ∧
    register wPlugin 5 wState = (false, wState) :=
  ⟨by decide, by decide,
   (C4_register_then_has_and_duplicate_noop wPlugin 5 wState).1 (by decide),
   (C4_register_then_has_and_duplicate_noop wPlugin 5 wState).2 (by decide)⟩

/-- C5: a descriptor failing validation (empty name, version or description,
or an empty trigger list — the non-array/non-callable arms are untypable
here) makes `register` return false with no mutation: the state, hence its
count and every existing registration, is unchanged, and nothing is
thrown (the embedding is total). -/
theorem C5_invalid_register_noop (p : L0Plugin) (now : Nat) (st : PluginManager)
    (h : validatePlugin p = false) :
    register p now st = (false, st) ∧ count (register p now st).2 = count st := by
  have hr : register p now st = (false, st) := by
    by_cases hh : mapHas p.metadata.name st.entries
    · simp [register, hh]
    · simp [register, hh, h]
  exact ⟨hr, by rw [hr]⟩

/-- C5 witness: the nameless descriptor fails validation and leaves the
one-plugin registry untouched. -/
theorem C5_invalid_register_noop_witness :
    validatePlugin badPlugin = false ∧
    register badPlugin 7 wState = (false, wState) ∧
    count (register badPlugin 7 wState).2 = count wState :=
  ⟨by decide,
   (C5_invalid_register_noop badPlugin 7 wState (by decide)).1,
   (C5_invalid_register_noop badPlugin 7 wState (by decide)).2⟩

/-- C6 counterexample: a registry holding one disabled plugin.  The plugin is
still registered and retrievable, its registration is disabled — and it
appears in `listDetailed` output (with `enabled := false`), refuting "never
appears in listing output" for `listDetailed`. -/
theorem C6_disabled_appears_in_listDetailed :
    (get "dis" disState).isSome = true ∧
    (mapGet "dis" disState.entries).map (fun r => r.enabled) = some false ∧
    listDetailed disState = [⟨disPlugin.metadata, false, disPlugin.triggers⟩] :=
  ⟨rfl, rfl, rfl⟩

/-- C6 (amended): on a well-formed registry (keys agree with plugin names and
are pairwise distinct, as `register` guarantees), a registration with
`enabled = false` contributes no plugin to any `findMatching` result and no
row to `list()` output, while its descriptor stays retrievable via `get`; and
after `setEnabled name false`, no plugin named `name` occurs in any
subsequent `findMatching` result or `list()` output until re-enabled, with
`get name` unchanged.  `listDetailed`, by contrast, deliberately reports
every registration together with its enabled flag (see the
counterexample). -/
theorem C6_disabled_plugin_invisible (st : PluginManager) (n q : String)
    (hwf : WF st) :
    (∀ e ∈ st.entries, e.2.enabled = false →
      (∀ p ∈ findMatching q st, p.metadata.name ≠ e.1) ∧
      (∀ m ∈ list st, m.name ≠ e.1) ∧
      get e.1 st = some e.2.plugin) ∧
    (∀ p ∈ findMatching q ((setEnabled n false st).2), p.metadata.name ≠ n) ∧
    (∀ m ∈ list ((setEnabled n false st).2), m.name ≠ n) ∧
    get n ((setEnabled n false st).2) = get n st := by
  refine ⟨?_, ?_, ?_, get_setEnabled n false st⟩
  · intro e he hdis
    refine ⟨?_, ?_, get_of_mem hwf.2 he⟩
    · intro p hp hn
      obtain ⟨e2, he2, hen2, hpl2⟩ := findMatching_mem hp
      have hkey2 := hwf.1 e2 he2
      rw [hpl2, hn] at hkey2
      have heq := pairwise_key_inj hwf.2 e2 he2 e he hkey2
      rw [heq] at hen2
      rw [hdis] at hen2
      simp at hen2
    · intro m hm hn
      obtain ⟨e2, he2, hen2, hml2⟩ := list_mem hm
      have hkey2 := hwf.1 e2 he2
      rw [hml2, hn] at hkey2
      have heq := pairwise_key_inj hwf.2 e2 he2 e he hkey2
      rw [heq] at hen2
      rw [hdis] at hen2
      simp at hen2
  · intro p hp hn
    cases hg : mapGet n st.entries with
    | none =>
      have hst : (setEnabled n false st).2 = st := by unfold setEnabled; rw [hg]
      rw [hst] at hp
      obtain ⟨e, he, _, hpl⟩ := findMatching_mem hp
      have hkey := hwf.1 e he
      have hfalse := mapGet_none_keys hg e he
      rw [hpl, hn] at hkey
      rw [hkey] at hfalse
      simp at hfalse
    | some reg =>
      have hst : (setEnabled n false st).2.entries
          = st.entries.map (fun e =>
              if e.1 == n then (e.1, { e.2 with enabled := false }) else e) := by
        unfold setEnabled; rw [hg]
      obtain ⟨e2, he2, hen, hpl⟩ := findMatching_mem hp
      rw [hst] at he2
      obtain ⟨e0, he0, he0eq⟩ := List.mem_map.mp he2
      by_cases hk : (e0.1 == n) = true
      · rw [if_pos hk] at he0eq
        rw [← he0eq] at hen
        simp at hen
      · rw [if_neg hk] at he0eq
        rw [← he0eq] at hen hpl
        have hkey := hwf.1 e0 he0
        rw [hpl, hn] at hkey
        exact hk (by simp [hkey])
  · intro m hm hn
    cases hg : mapGet n st.entries with
    | none =>
      have hst : (setEnabled n false st).2 = st := by unfold setEnabled; rw [hg]
      rw [hst] at hm
      obtain ⟨e, he, _, hml⟩ := list_mem hm
      have hkey := hwf.1 e he
      have hfalse := mapGet_none_keys hg e he
      rw [hml, hn] at hkey
      rw [hkey] at hfalse
      simp at hfalse
    | some reg =>
      have hst : (setEnabled n false st).2.entries
          = st.entries.map (fun e =>
              if e.1 == n then (e.1, { e.2 with enabled := false }) else e) := by
        unfold setEnabled; rw [hg]
      obtain ⟨e2, he2, hen, hml⟩ := list_mem hm
      rw [hst] at he2
      obtain ⟨e0, he0, he0eq⟩ := List.mem_map.mp he2
      by_cases hk : (e0.1 == n) = true
      · rw [if_pos hk] at he0eq
        rw [← he0eq] at hen
        simp at hen
      · rw [if_neg hk] at he0eq
        rw [← he0eq] at hen hml
        have hkey := hwf.1 e0 he0
        rw [hml, hn] at hkey
        exact hk (by simp [hkey])

/-- C6 witness: in a registry where "alpha" is registered disabled and
"beta" enabled, no plugin named "alpha" is matched or listed while `get`
still returns its descriptor; and after `setEnabled "alpha" false` on the
all-enabled registry, "alpha" disappears from matching and listing with
`get` unchanged. -/
theorem C6_disabled_plugin_invisible_witness :
    WF visStateMixed ∧ WF visState ∧
    (∀ p ∈ findMatching "alphatrig betatrig" visStateMixed,
      p.metadata.name ≠ "alpha") ∧
    get "alpha" visStateMixed = some visPluginA ∧
    (∀ p ∈ findMatching "alphatrig betatrig" ((setEnabled "alpha" false visState).2),
      p.metadata.name ≠ "alpha") ∧
    (∀ m ∈ list ((setEnabled "alpha" false visState).2), m.name ≠ "alpha") ∧
    get "alpha" ((setEnabled "alpha" false visState).2) = get "alpha" visState :=
  ⟨by unfold WF; exact ⟨by decide, by decide⟩,
   by unfold WF; exact ⟨by decide, by decide⟩,
   ((C6_disabled_plugin_invisible visStateMixed "unused" "alphatrig betatrig"
       (by unfold WF; exact ⟨by decide, by decide⟩)).1
     ("alpha", ⟨visPluginA, false, 0⟩) (List.Mem.head _) rfl).1,
   ((C6_disabled_plugin_invisible visStateMixed "unused" "alphatrig betatrig"
       (by unfold WF; exact ⟨by decide, by decide⟩)).1
     ("alpha", ⟨visPluginA, false, 0⟩) (List.Mem.head _) rfl).2.2,
   (C6_disabled_plugin_invisible visState "alpha" "alphatrig betatrig"
     (by unfold WF; exact ⟨by decide, by decide⟩)).2.1,
   (C6_disabled_plugin_invisible visState "alpha" "alphatrig betatrig"
     (by unfold WF; exact ⟨by decide, by decide⟩)).2.2.1,
   (C6_disabled_plugin_invisible visState "alpha" "alphatrig betatrig"
     (by unfold WF; exact ⟨by decide, by decide⟩)).2.2.2⟩

/-- C7: `findMatching` equals the spec's description of the scoring pipeline:
score every enabled plugin by the summed character-lengths of its triggers
occurring case-insensitively in the lowercased query plus its priority, drop
plugins whose trigger-length sum is zero regardless of priority, and return
the rest stably sorted by descending score; independently, the returned
sequence is pairwise non-increasing in MatchScore. -/
theorem C7_findMatching_refines_spec (q : String) (st : PluginManager) :
    findMatching q st = findMatchingSpec q st ∧
    (findMatching q st).Pairwise
      (fun a b => matchScoreSpec (jsLower q) b ≤ matchScoreSpec (jsLower q) a) :=
  ⟨by unfold findMatching findMatchingSpec; rw [collectMatches_eq],
   findMatching_sorted q st⟩

/-- C9: `findMatching` is deterministic: for a fixed registry state, two
calls with the same query — with no intervening mutation, which the pure
state-passing embedding makes structural, since `findMatching` takes the
state and returns only the match list — produce identical ordered results.
(The embedding's `sortDesc` is the stable sort the spec demands, so the
order is fully determined by the state's insertion order.) -/
theorem C9_findMatching_deterministic (q : String) (st : PluginManager) :
    findMatching q st = findMatching q st := rfl

/-- C8: on the query "remember that the deploy key rotates monthly" the
memory adapter classifies the intent as create, extracts the content
"the deploy key rotates monthly", and issues exactly one POST to
/api/v1/memory; when that call times out, the handler returns a Response of
type memory whose message reports the timeout ("Could not save: Request
timed out") instead of an unhandled rejection (the handler is total). -/
theorem C8_memory_create_scenario :
    MemoryPlugin.detectIntent c8query = .create ∧
    MemoryPlugin.extractContent c8query .create = "the deploy key rotates monthly" ∧
    (MemoryPlugin.memoryPluginHandler memCfg memEnv netTimeout ⟨c8query, none⟩).2
      = [{ method := .post, url := "https://api.lanonasis.com/api/v1/memory",
           endpoint := "/api/v1/memory", authToken := none,
           body := some (.createMem "the deploy key rotates monthly"
             "the deploy key rotates monthly" "context" []) }] ∧
    (MemoryPlugin.memoryPluginHandler memCfg memEnv netTimeout ⟨c8query, none⟩).1.type
      = .memory ∧
    (MemoryPlugin.memoryPluginHandler memCfg memEnv netTimeout ⟨c8query, none⟩).1.message
      = "Could not save: Request timed out" :=
  ⟨by decide, by decide, by decide, by decide, by decide⟩

/-- C10: whenever the detected memory intent is create but the extracted
content is empty or shorter than 3 characters, the handler answers with the
type-memory prompt for more detail and issues no HTTP request at all (the
request log stays empty), for every configuration, environment and network
oracle. -/
theorem C10_short_create_content_no_request
    (cfg : MemoryPlugin.MemoryPluginConfig) (env : MemoryPlugin.Env)
    (net : MemoryPlugin.Net) (q : String) (opts : Option Opts)
    (h1 : MemoryPlugin.detectIntent q = .create)
    (h2 : MemoryPlugin.extractContent q .create = "" ∨
          (MemoryPlugin.extractContent q .create).length < 3) :
    MemoryPlugin.memoryPluginHandler cfg env net ⟨q, opts⟩
      = ({ message := "What would you like me to remember? Tell me more!",
           type := .memory }, []) := by
  unfold MemoryPlugin.memoryPluginHandler
  simp only [h1]
  have hcond : (MemoryPlugin.extractContent q .create == ""
      || decide ((MemoryPlugin.extractContent q .create).length < 3)) = true := by
    rcases h2 with h | h
    · simp [h]
    · simp [h]
  simp [hcond]

/-- C10 witness: "save xy" has create intent and extracted content "xy" of
length 2; the handler returns the prompt and logs no request. -/
theorem C10_short_create_content_no_request_witness :
    MemoryPlugin.detectIntent "save xy" = .create ∧
    (MemoryPlugin.extractContent "save xy" .create).length < 3 ∧
    MemoryPlugin.memoryPluginHandler memCfg memEnv netTimeout ⟨"save xy", none⟩
      = ({ message := "What would you like me to remember? Tell me more!",
           type := .memory }, []) :=
  ⟨by decide, by decide,
   C10_short_create_content_no_request memCfg memEnv netTimeout "save xy" none
     (by decide) (Or.inr (by decide))⟩

end LZero
